import Mathlib

/-!
# wgpu-example-c: a shallow embedding of `src/main.c`

The program drives the WebGPU C API (`webgpu.h`), SDL2 and cglm.  None of the
three libraries is part of the repository, so the embedding records every
WebGPU call the program makes, with its arguments and its result, in a trace,
and threads the C `State` struct through the functions of `main.c`.

Conventions of the embedding:

* a handle (`WGPUInstance`, `WGPUTexture`, ...) is a natural number naming a
  GPU object; `0` is `NULL`.  Every call that returns an object returns a
  new name (`Sys.next`), never one used before: handles name objects, not
  addresses.
* the calls whose failure `main.c` checks (instance and surface creation, the
  adapter and device requests, the capabilities query, the frame acquisition)
  fail or succeed as the `Platform` record, or the per-frame status, says; a
  failed creation or request returns `NULL`.  All other creations succeed.
* the two request callbacks fire before the request call returns.
* `float` is idealised as a linear ordered field `K`; the libm functions used
  by cglm are passed in a `Libm K` record.
-/

namespace WgpuExample

/-! ## Handles and enumerations of `webgpu.h` -/

/-- The C null pointer. Handles are natural numbers and `NULL` is zero. -/
abbrev NULL : Nat := 0

inductive WGPURequestAdapterStatus where
  | Success | InstanceDropped | Unavailable | Error | Unknown
  deriving DecidableEq

inductive WGPURequestDeviceStatus where
  | Success | InstanceDropped | Error | Unknown
  deriving DecidableEq

inductive WGPUStatus where
  | Success | Error
  deriving DecidableEq

inductive WGPUSurfaceGetCurrentTextureStatus where
  | SuccessOptimal | SuccessSuboptimal | Timeout | Outdated | Lost
  | OutOfMemory | DeviceLost | Error
  deriving DecidableEq

inductive WGPUTextureFormat where
  | Undefined
  | Depth32Float
  | Other (code : Nat)
  deriving DecidableEq

inductive WGPUPresentMode where
  | Undefined | Fifo | FifoRelaxed | Immediate | Mailbox
  deriving DecidableEq

inductive WGPUTextureDimension where
  | Undefined | D1 | D2 | D3
  deriving DecidableEq

inductive WGPUPrimitiveTopology where
  | Undefined | PointList | LineList | LineStrip | TriangleList | TriangleStrip
  deriving DecidableEq

inductive WGPUFrontFace where
  | Undefined | CCW | CW
  deriving DecidableEq

inductive WGPUCullMode where
  | Undefined | None | Front | Back
  deriving DecidableEq

inductive WGPUCompareFunction where
  | Undefined | Never | Less | Equal | LessEqual | Greater | NotEqual | GreaterEqual | Always
  deriving DecidableEq

inductive WGPUBlendFactor where
  | Zero | One | SrcAlpha | OneMinusSrcAlpha
  deriving DecidableEq

inductive WGPUBlendOperation where
  | Add | Subtract
  deriving DecidableEq

inductive WGPUVertexFormat where
  | Float32x4
  deriving DecidableEq

inductive WGPULoadOp where
  | Undefined | Load | Clear
  deriving DecidableEq

inductive WGPUStoreOp where
  | Undefined | Store | Discard
  deriving DecidableEq

inductive WGPUIndexFormat where
  | Undefined | Uint16 | Uint32
  deriving DecidableEq

inductive WGPUPowerPreference where
  | Undefined | LowPower | HighPerformance
  deriving DecidableEq

/-- The flag `WGPUTextureUsage_RenderAttachment`. -/
def WGPUTextureUsage_RenderAttachment : Nat := 0x10
def WGPUBufferUsage_CopyDst : Nat := 0x8
def WGPUBufferUsage_Index : Nat := 0x10
def WGPUBufferUsage_Vertex : Nat := 0x20
def WGPUBufferUsage_Uniform : Nat := 0x40
def WGPUShaderStage_Vertex : Nat := 0x1
def WGPUColorWriteMask_All : Nat := 0xF

/-- The macro `DEPTH_FORMAT` of `main.c`. -/
def DEPTH_FORMAT : WGPUTextureFormat := .Depth32Float

/-! ## Descriptors -/

structure WGPUSurfaceConfiguration where
  device : Nat
  usage : Nat
  format : WGPUTextureFormat
  width : Nat
  height : Nat
  presentMode : WGPUPresentMode
  alphaMode : Nat
  deriving DecidableEq

/-- The all-zero configuration left by `State state = {0}`. -/
def WGPUSurfaceConfiguration.zero : WGPUSurfaceConfiguration :=
  { device := NULL, usage := 0, format := .Undefined, width := 0, height := 0,
    presentMode := .Undefined, alphaMode := 0 }

structure WGPUTextureDescriptor where
  width : Nat
  height : Nat
  depthOrArrayLayers : Nat
  mipLevelCount : Nat
  sampleCount : Nat
  dimension : WGPUTextureDimension
  format : WGPUTextureFormat
  usage : Nat
  deriving DecidableEq

structure WGPUBufferDescriptor where
  label : String
  size : Nat
  usage : Nat
  mappedAtCreation : Bool
  deriving DecidableEq

structure WGPUBindGroupLayoutDescriptor where
  entryCount : Nat
  binding : Nat
  visibility : Nat
  bufferIsUniform : Bool
  deriving DecidableEq

structure WGPUBindGroupDescriptor where
  layout : Nat
  entryCount : Nat
  binding : Nat
  buffer : Nat
  size : Nat
  deriving DecidableEq

structure WGPUVertexAttribute where
  format : WGPUVertexFormat
  offset : Nat
  shaderLocation : Nat
  deriving DecidableEq

structure WGPUBlendComponent where
  srcFactor : WGPUBlendFactor
  dstFactor : WGPUBlendFactor
  operation : WGPUBlendOperation
  deriving DecidableEq

structure WGPURenderPipelineDescriptor where
  layout : Nat
  vertexModule : Nat
  vertexEntryPoint : String
  arrayStride : Nat
  attributes : List WGPUVertexAttribute
  topology : WGPUPrimitiveTopology
  frontFace : WGPUFrontFace
  cullMode : WGPUCullMode
  depthFormat : WGPUTextureFormat
  depthWriteEnabled : Bool
  depthCompare : WGPUCompareFunction
  multisampleCount : Nat
  multisampleMask : Nat
  fragmentModule : Nat
  fragmentEntryPoint : String
  targetFormat : WGPUTextureFormat
  blendColor : WGPUBlendComponent
  blendAlpha : WGPUBlendComponent
  writeMask : Nat
  deriving DecidableEq

/-- The colour and depth attachments of the one render pass. -/
structure WGPURenderPassDescriptor (K : Type) where
  colorView : Nat
  colorLoadOp : WGPULoadOp
  colorStoreOp : WGPUStoreOp
  clearValue : K × K × K × K
  depthView : Nat
  depthLoadOp : WGPULoadOp
  depthStoreOp : WGPUStoreOp
  depthClearValue : K

/-- A 4x4 matrix; entry `(r, c)` is cglm's `m[c][r]` (cglm is column-major). -/
abbrev Mat4 (K : Type) := Matrix (Fin 4) (Fin 4) K

/-- A cglm `vec3`. -/
abbrev Vec3 (K : Type) := Fin 3 → K

/-- The host arrays copied into the mapped geometry buffers. -/
inductive HostArray where
  | vertices | indices
  deriving DecidableEq

/-! ## The WebGPU calls made by `main.c`

Each constructor is one API function; the last argument of a creating call is
the handle it returned. -/

inductive Call (K : Type) where
  | wgpuCreateInstance (result : Nat)
  | wgpuInstanceCreateSurface (inst : Nat) (result : Nat)
  | wgpuInstanceRequestAdapter (inst surface : Nat) (pref : WGPUPowerPreference)
      (status : WGPURequestAdapterStatus) (adapter : Nat)
  | wgpuAdapterRequestDevice (adapter : Nat)
      (status : WGPURequestDeviceStatus) (device : Nat)
  | wgpuDeviceGetQueue (device : Nat) (result : Nat)
  | wgpuSurfaceGetCapabilities (surface adapter : Nat) (status : WGPUStatus)
  | wgpuSurfaceCapabilitiesFreeMembers
  | wgpuSurfaceConfigure (surface : Nat) (config : WGPUSurfaceConfiguration)
  | wgpuTextureDestroy (texture : Nat)
  | wgpuTextureRelease (texture : Nat)
  | wgpuTextureViewRelease (view : Nat)
  | wgpuDeviceCreateTexture (device : Nat) (desc : WGPUTextureDescriptor) (result : Nat)
  | wgpuTextureCreateView (texture : Nat) (result : Nat)
  | wgpuDeviceCreateBuffer (device : Nat) (desc : WGPUBufferDescriptor) (result : Nat)
  | wgpuBufferGetMappedRange (buffer : Nat) (offset size : Nat)
  | memcpy (buffer : Nat) (src : HostArray) (size : Nat)
  | wgpuBufferUnmap (buffer : Nat)
  | wgpuDeviceCreateBindGroupLayout (device : Nat) (desc : WGPUBindGroupLayoutDescriptor)
      (result : Nat)
  | wgpuDeviceCreateBindGroup (device : Nat) (desc : WGPUBindGroupDescriptor) (result : Nat)
  | wgpuDeviceCreateShaderModule (device : Nat) (result : Nat)
  | wgpuDeviceCreatePipelineLayout (device : Nat) (bindGroupLayout : Nat) (result : Nat)
  | wgpuDeviceCreateRenderPipeline (device : Nat) (desc : WGPURenderPipelineDescriptor)
      (result : Nat)
  | wgpuShaderModuleRelease (shader : Nat)
  | wgpuPipelineLayoutRelease (layout : Nat)
  | wgpuQueueWriteBuffer (queue buffer : Nat) (offset : Nat) (data : Mat4 K) (size : Nat)
  | wgpuSurfaceGetCurrentTexture (surface : Nat)
      (status : WGPUSurfaceGetCurrentTextureStatus) (texture : Nat)
  | wgpuDeviceCreateCommandEncoder (device : Nat) (result : Nat)
  | wgpuCommandEncoderBeginRenderPass (encoder : Nat) (desc : WGPURenderPassDescriptor K)
      (result : Nat)
  | wgpuRenderPassEncoderSetPipeline (pass pipeline : Nat)
  | wgpuRenderPassEncoderSetBindGroup (pass : Nat) (index : Nat) (group : Nat)
  | wgpuRenderPassEncoderSetVertexBuffer (pass : Nat) (slot : Nat) (buffer : Nat)
      (offset size : Nat)
  | wgpuRenderPassEncoderSetIndexBuffer (pass buffer : Nat) (format : WGPUIndexFormat)
      (offset size : Nat)
  | wgpuRenderPassEncoderDrawIndexed (pass : Nat)
      (indexCount instanceCount firstIndex : Nat) (baseVertex : Int) (firstInstance : Nat)
  | wgpuRenderPassEncoderEnd (pass : Nat)
  | wgpuRenderPassEncoderRelease (pass : Nat)
  | wgpuCommandEncoderFinish (encoder : Nat) (result : Nat)
  | wgpuCommandEncoderRelease (encoder : Nat)
  | wgpuQueueSubmit (queue : Nat) (commands : List Nat)
  | wgpuCommandBufferRelease (buffer : Nat)
  | wgpuSurfacePresent (surface : Nat)
  | wgpuRenderPipelineRelease (pipeline : Nat)
  | wgpuBindGroupRelease (group : Nat)
  | wgpuBindGroupLayoutRelease (layout : Nat)
  | wgpuBufferRelease (buffer : Nat)
  | wgpuQueueRelease (queue : Nat)
  | wgpuDeviceRelease (device : Nat)
  | wgpuAdapterRelease (adapter : Nat)
  | wgpuSurfaceRelease (surface : Nat)
  | wgpuInstanceRelease (inst : Nat)

/-! ## The program state -/

/-- The C struct `State`. -/
structure State (K : Type) where
  instance_ : Nat
  surface : Nat
  adapter : Nat
  device : Nat
  queue : Nat
  surface_config : WGPUSurfaceConfiguration
  depth_texture : Nat
  depth_view : Nat
  pipeline : Nat
  vertex_buffer : Nat
  index_buffer : Nat
  uniform_buffer : Nat
  bind_group : Nat
  bind_group_layout : Nat
  model : Mat4 K
  width : Nat
  height : Nat
  initialized : Bool

/-- The program state together with the GPU side: the next unused object name
and the calls made so far, oldest first. -/
structure Sys (K : Type) where
  state : State K
  next : Nat
  trace : List (Call K)

variable {K : Type}

/-- Record one call. -/
def Sys.emit (σ : Sys K) (c : Call K) : Sys K :=
  { σ with trace := σ.trace ++ [c] }

/-- Update the C struct. -/
def Sys.set (σ : Sys K) (f : State K → State K) : Sys K :=
  { σ with state := f σ.state }

/-- A creating call that succeeds: it returns the next unused object name. -/
def Sys.create (σ : Sys K) (mk : Nat → Call K) : Nat × Sys K :=
  (σ.next, { σ with next := σ.next + 1, trace := σ.trace ++ [mk σ.next] })

/-- A creating call that may fail: on failure it returns `NULL`. -/
def Sys.createIf (σ : Sys K) (ok : Bool) (mk : Nat → Call K) : Nat × Sys K :=
  if ok then σ.create mk else (NULL, σ.emit (mk NULL))

/-! ## cglm, over exact arithmetic

cglm is an external library; the functions `main.c` calls are transcribed from
its headers (`vec3.h`, `mat4.h`, `affine-mat.h`, `cam.h` with the default
right-handed, minus-one-to-one clip space), with `float` read as `K`. -/

/-- The libm functions cglm calls, and the constant `GLM_PIf`. -/
structure Libm (K : Type) where
  pi : K
  cosf : K → K
  sinf : K → K
  tanf : K → K
  sqrtf : K → K

section Cglm

variable [LinearOrderedField K]

/-- The C constant `FLT_EPSILON`, two to the minus 23. -/
def FLT_EPSILON : K := 1 / 8388608

def glm_rad (L : Libm K) (deg : K) : K := deg * L.pi / 180

def glm_vec3_dot (a b : Vec3 K) : K := a 0 * b 0 + a 1 * b 1 + a 2 * b 2

def glm_vec3_norm (L : Libm K) (v : Vec3 K) : K := L.sqrtf (glm_vec3_dot v v)

def glm_vec3_scale (v : Vec3 K) (s : K) : Vec3 K := ![v 0 * s, v 1 * s, v 2 * s]

def glm_vec3_sub (a b : Vec3 K) : Vec3 K := ![a 0 - b 0, a 1 - b 1, a 2 - b 2]

def glm_vec3_cross (a b : Vec3 K) : Vec3 K :=
  ![a 1 * b 2 - a 2 * b 1, a 2 * b 0 - a 0 * b 2, a 0 * b 1 - a 1 * b 0]

/-- Both `glm_vec3_normalize` and `glm_vec3_normalize_to`: a vector shorter
than `FLT_EPSILON` becomes zero. -/
def glm_vec3_normalize_to (L : Libm K) (v : Vec3 K) : Vec3 K :=
  let norm := glm_vec3_norm L v
  if norm < FLT_EPSILON then ![0, 0, 0] else glm_vec3_scale v (1 / norm)

def glm_mat4_identity : Mat4 K :=
  !![1, 0, 0, 0; 0, 1, 0, 0; 0, 0, 1, 0; 0, 0, 0, 1]

/-- The function `glm_mat4_mul(m1, m2, dest)`: `dest(r, c)` is the sum over `k`
of `m1(r, k) * m2(k, c)`. -/
def glm_mat4_mul (m1 m2 : Mat4 K) : Mat4 K :=
  Matrix.of fun r c => m1 r 0 * m2 0 c + m1 r 1 * m2 1 c + m1 r 2 * m2 2 c + m1 r 3 * m2 3 c

/-- The function `glm_rotate_make(m, angle, axis)`. In cglm: `axisn` is the
normalised axis, `v = axisn * (1 - c)`, `vs = axisn * s`, column `j` of the
upper 3x3 block starts as `axisn * v[j]`, and then `c` and the entries of `vs`
are added or subtracted entry by entry. -/
def glm_rotate_make (L : Libm K) (angle : K) (axis : Vec3 K) : Mat4 K :=
  let c := L.cosf angle
  let axisn := glm_vec3_normalize_to L axis
  let v := glm_vec3_scale axisn (1 - c)
  let vs := glm_vec3_scale axisn (L.sinf angle)
  let m0 := glm_vec3_scale axisn (v 0)
  let m1 := glm_vec3_scale axisn (v 1)
  let m2 := glm_vec3_scale axisn (v 2)
  !![m0 0 + c,    m1 0 - vs 2, m2 0 + vs 1, 0;
     m0 1 + vs 2, m1 1 + c,    m2 1 - vs 0, 0;
     m0 2 - vs 1, m1 2 + vs 0, m2 2 + c,    0;
     0,           0,           0,           1]

/-- The function `glm_perspective(fovy, aspect, nearZ, farZ, dest)`. -/
def glm_perspective (L : Libm K) (fovy aspect nearZ farZ : K) : Mat4 K :=
  let f := 1 / L.tanf (fovy * (1 / 2))
  let fn := 1 / (nearZ - farZ)
  !![f / aspect, 0, 0,                    0;
     0,          f, 0,                    0;
     0,          0, (nearZ + farZ) * fn,  2 * nearZ * farZ * fn;
     0,          0, -1,                   0]

/-- The function `glm_lookat(eye, center, up, dest)`. -/
def glm_lookat (L : Libm K) (eye center up : Vec3 K) : Mat4 K :=
  let f := glm_vec3_normalize_to L (glm_vec3_sub center eye)
  let s := glm_vec3_normalize_to L (glm_vec3_cross f up)
  let u := glm_vec3_cross s f
  !![s 0,    s 1,    s 2,    -glm_vec3_dot s eye;
     u 0,    u 1,    u 2,    -glm_vec3_dot u eye;
     -(f 0), -(f 1), -(f 2), glm_vec3_dot f eye;
     0,      0,      0,      1]

end Cglm

/-! ## The environment of the bootstrap -/

/-- How the fallible calls of the bootstrap turn out. -/
structure Platform where
  /-- `SDL_Init` returned 0 -/
  sdl_init_ok : Bool
  /-- `SDL_CreateWindow` returned a window -/
  window_ok : Bool
  /-- `wgpuCreateInstance` returned an instance -/
  instance_ok : Bool
  /-- `SDL_GetWindowWMInfo` succeeded -/
  wm_info_ok : Bool
  /-- `wgpuInstanceCreateSurface` returned a surface -/
  surface_ok : Bool
  adapter_status : WGPURequestAdapterStatus
  device_status : WGPURequestDeviceStatus
  caps_status : WGPUStatus
  /-- `caps.formats[0]` -/
  caps_format : WGPUTextureFormat
  /-- `caps.alphaModes[0]` -/
  caps_alpha : Nat
  deriving DecidableEq

/-- Every stage of the bootstrap succeeds. -/
def Platform.all_ok (P : Platform) : Bool :=
  P.instance_ok && P.wm_info_ok && P.surface_ok && decide (P.adapter_status = .Success) &&
    decide (P.device_status = .Success) && decide (P.caps_status = .Success)

/-! ## The functions of `main.c` -/

section Program

variable [LinearOrderedField K]

/-- `sizeof(vertices)`: three vertices of eight floats. -/
def sizeof_vertices : Nat := 96
/-- `sizeof(indices)`: three `uint32_t`. -/
def sizeof_indices : Nat := 12
/-- `sizeof(UniformBuffer)`: one `mat4`. -/
def sizeof_UniformBuffer : Nat := 64
/-- `sizeof(Vertex)` -/
def sizeof_Vertex : Nat := 32

def create_surface_from_sdl (P : Platform) (σ : Sys K) (inst : Nat) : Nat × Sys K :=
  if !P.wm_info_ok then (NULL, σ)
  else σ.createIf P.surface_ok (.wgpuInstanceCreateSurface inst)

def create_depth_texture (σ : Sys K) : Sys K :=
  let σ := if σ.state.depth_texture ≠ NULL then
      (σ.emit (.wgpuTextureDestroy σ.state.depth_texture)).emit
        (.wgpuTextureRelease σ.state.depth_texture)
    else σ
  let σ := if σ.state.depth_view ≠ NULL then
      σ.emit (.wgpuTextureViewRelease σ.state.depth_view)
    else σ
  let depth_texture_desc : WGPUTextureDescriptor :=
    { width := σ.state.width, height := σ.state.height, depthOrArrayLayers := 1,
      mipLevelCount := 1, sampleCount := 1, dimension := .D2, format := DEPTH_FORMAT,
      usage := WGPUTextureUsage_RenderAttachment }
  let t := σ.create (.wgpuDeviceCreateTexture σ.state.device depth_texture_desc)
  let σ := t.2.set fun s => { s with depth_texture := t.1 }
  let v := σ.create (.wgpuTextureCreateView σ.state.depth_texture)
  v.2.set fun s => { s with depth_view := v.1 }

def create_buffers (σ : Sys K) : Sys K :=
  let vertex_buffer_desc : WGPUBufferDescriptor :=
    { label := "Vertex Buffer", size := sizeof_vertices,
      usage := WGPUBufferUsage_Vertex ||| WGPUBufferUsage_CopyDst, mappedAtCreation := true }
  let b := σ.create (.wgpuDeviceCreateBuffer σ.state.device vertex_buffer_desc)
  let σ := b.2.set fun s => { s with vertex_buffer := b.1 }
  let σ := σ.emit (.wgpuBufferGetMappedRange σ.state.vertex_buffer 0 sizeof_vertices)
  let σ := σ.emit (.memcpy σ.state.vertex_buffer .vertices sizeof_vertices)
  let σ := σ.emit (.wgpuBufferUnmap σ.state.vertex_buffer)
  let index_buffer_desc : WGPUBufferDescriptor :=
    { label := "Index Buffer", size := sizeof_indices,
      usage := WGPUBufferUsage_Index ||| WGPUBufferUsage_CopyDst, mappedAtCreation := true }
  let b := σ.create (.wgpuDeviceCreateBuffer σ.state.device index_buffer_desc)
  let σ := b.2.set fun s => { s with index_buffer := b.1 }
  let σ := σ.emit (.wgpuBufferGetMappedRange σ.state.index_buffer 0 sizeof_indices)
  let σ := σ.emit (.memcpy σ.state.index_buffer .indices sizeof_indices)
  let σ := σ.emit (.wgpuBufferUnmap σ.state.index_buffer)
  let uniform_buffer_desc : WGPUBufferDescriptor :=
    { label := "Uniform Buffer", size := sizeof_UniformBuffer,
      usage := WGPUBufferUsage_Uniform ||| WGPUBufferUsage_CopyDst, mappedAtCreation := false }
  let b := σ.create (.wgpuDeviceCreateBuffer σ.state.device uniform_buffer_desc)
  let σ := b.2.set fun s => { s with uniform_buffer := b.1 }
  let bind_group_layout_desc : WGPUBindGroupLayoutDescriptor :=
    { entryCount := 1, binding := 0, visibility := WGPUShaderStage_Vertex,
      bufferIsUniform := true }
  let l := σ.create (.wgpuDeviceCreateBindGroupLayout σ.state.device bind_group_layout_desc)
  let σ := l.2.set fun s => { s with bind_group_layout := l.1 }
  let bind_group_desc : WGPUBindGroupDescriptor :=
    { layout := σ.state.bind_group_layout, entryCount := 1, binding := 0,
      buffer := σ.state.uniform_buffer, size := sizeof_UniformBuffer }
  let g := σ.create (.wgpuDeviceCreateBindGroup σ.state.device bind_group_desc)
  g.2.set fun s => { s with bind_group := g.1 }

def create_pipeline (σ : Sys K) (surface_format : WGPUTextureFormat) : Sys K :=
  let m := σ.create (.wgpuDeviceCreateShaderModule σ.state.device)
  let shader_module := m.1
  let σ := m.2
  let y := σ.create (.wgpuDeviceCreatePipelineLayout σ.state.device σ.state.bind_group_layout)
  let pipeline_layout := y.1
  let σ := y.2
  let pipeline_desc : WGPURenderPipelineDescriptor :=
    { layout := pipeline_layout,
      vertexModule := shader_module,
      vertexEntryPoint := "vertex_main",
      arrayStride := sizeof_Vertex,
      attributes := [{ format := .Float32x4, offset := 0, shaderLocation := 0 },
                     { format := .Float32x4, offset := 4 * 4, shaderLocation := 1 }],
      topology := .TriangleList,
      frontFace := .CW,
      cullMode := .None,
      depthFormat := DEPTH_FORMAT,
      depthWriteEnabled := true,
      depthCompare := .Less,
      multisampleCount := 1,
      multisampleMask := 0xFFFFFFFF,
      fragmentModule := shader_module,
      fragmentEntryPoint := "fragment_main",
      targetFormat := surface_format,
      blendColor := { srcFactor := .SrcAlpha, dstFactor := .OneMinusSrcAlpha, operation := .Add },
      blendAlpha := { srcFactor := .One, dstFactor := .OneMinusSrcAlpha, operation := .Add },
      writeMask := WGPUColorWriteMask_All }
  let p := σ.create (.wgpuDeviceCreateRenderPipeline σ.state.device pipeline_desc)
  let σ := p.2.set fun s => { s with pipeline := p.1 }
  let σ := σ.emit (.wgpuShaderModuleRelease shader_module)
  σ.emit (.wgpuPipelineLayoutRelease pipeline_layout)

def on_device (P : Platform) (σ : Sys K) : Sys K :=
  let q := σ.create (.wgpuDeviceGetQueue σ.state.device)
  let σ := q.2.set fun s => { s with queue := q.1 }
  let σ := σ.emit (.wgpuSurfaceGetCapabilities σ.state.surface σ.state.adapter P.caps_status)
  if P.caps_status ≠ .Success then σ
  else
    let surface_format := P.caps_format
    let σ := σ.set fun s => { s with surface_config :=
      { device := s.device, usage := WGPUTextureUsage_RenderAttachment,
        format := surface_format, width := s.width, height := s.height,
        presentMode := .Fifo, alphaMode := P.caps_alpha } }
    let σ := σ.emit (.wgpuSurfaceConfigure σ.state.surface σ.state.surface_config)
    let σ := create_depth_texture σ
    let σ := create_buffers σ
    let σ := create_pipeline σ surface_format
    let σ := σ.set fun s => { s with model := glm_mat4_identity }
    let σ := σ.set fun s => { s with initialized := true }
    σ.emit .wgpuSurfaceCapabilitiesFreeMembers

def device_request_callback (P : Platform) (σ : Sys K)
    (status : WGPURequestDeviceStatus) (device : Nat) : Sys K :=
  if status ≠ .Success then σ
  else on_device P (σ.set fun s => { s with device := device })

def on_adapter (P : Platform) (σ : Sys K) : Sys K :=
  let d := σ.createIf (decide (P.device_status = .Success))
    (.wgpuAdapterRequestDevice σ.state.adapter P.device_status)
  device_request_callback P d.2 P.device_status d.1

def adapter_request_callback (P : Platform) (σ : Sys K)
    (status : WGPURequestAdapterStatus) (adapter : Nat) : Sys K :=
  if status ≠ .Success then σ
  else on_adapter P (σ.set fun s => { s with adapter := adapter })

def init_wgpu (P : Platform) (σ : Sys K) : Sys K :=
  let i := σ.createIf P.instance_ok .wgpuCreateInstance
  let σ := i.2.set fun s => { s with instance_ := i.1 }
  if σ.state.instance_ = NULL then σ
  else
    let f := create_surface_from_sdl P σ σ.state.instance_
    let σ := f.2.set fun s => { s with surface := f.1 }
    if σ.state.surface = NULL then σ
    else
      let a := σ.createIf (decide (P.adapter_status = .Success))
        (.wgpuInstanceRequestAdapter σ.state.instance_ σ.state.surface .HighPerformance
          P.adapter_status)
      adapter_request_callback P a.2 P.adapter_status a.1

def resize (σ : Sys K) (width height : Nat) : Sys K :=
  if !σ.state.initialized then σ
  else
    let σ := σ.set fun s => { s with width := width }
    let σ := σ.set fun s => { s with height := height }
    let σ := σ.set fun s => { s with surface_config := { s.surface_config with width := width } }
    let σ := σ.set fun s => { s with surface_config := { s.surface_config with height := height } }
    let σ := σ.emit (.wgpuSurfaceConfigure σ.state.surface σ.state.surface_config)
    create_depth_texture σ

def update (L : Libm K) (σ : Sys K) (delta_time : K) : Sys K :=
  let aspect : K := (σ.state.width : K) /
    ((if σ.state.height > 0 then σ.state.height else 1 : Nat) : K)
  let projection := glm_perspective L (glm_rad L 80) aspect (1 / 10) 1000
  let eye : Vec3 K := ![0, 0, 3]
  let center : Vec3 K := ![0, 0, 0]
  let up : Vec3 K := ![0, 1, 0]
  let view := glm_lookat L eye center up
  let axis : Vec3 K := ![0, 1, 0]
  let rotation := glm_rotate_make L (glm_rad L 30 * delta_time) axis
  let σ := σ.set fun s => { s with model := glm_mat4_mul rotation s.model }
  let view_model := glm_mat4_mul view σ.state.model
  let mvp := glm_mat4_mul projection view_model
  σ.emit (.wgpuQueueWriteBuffer σ.state.queue σ.state.uniform_buffer 0 mvp sizeof_UniformBuffer)

/-- The two statuses for which `wgpuSurfaceGetCurrentTexture` hands out a texture. -/
def WGPUSurfaceGetCurrentTextureStatus.isSuccess :
    WGPUSurfaceGetCurrentTextureStatus → Bool
  | .SuccessOptimal => true
  | .SuccessSuboptimal => true
  | _ => false

/-- The function `render`; `status` is what `wgpuSurfaceGetCurrentTexture` reports this frame. -/
def render (σ : Sys K) (status : WGPUSurfaceGetCurrentTextureStatus) : Sys K :=
  let x := σ.createIf status.isSuccess (.wgpuSurfaceGetCurrentTexture σ.state.surface status)
  let surface_texture := x.1
  let σ := x.2
  if status ≠ .SuccessOptimal ∧ status ≠ .SuccessSuboptimal then σ
  else
    let w := σ.create (.wgpuTextureCreateView surface_texture)
    let surface_view := w.1
    let σ := w.2
    let e := σ.create (.wgpuDeviceCreateCommandEncoder σ.state.device)
    let encoder := e.1
    let σ := e.2
    let render_pass_desc : WGPURenderPassDescriptor K :=
      { colorView := surface_view, colorLoadOp := .Clear, colorStoreOp := .Store,
        clearValue := (19 / 100, 24 / 100, 42 / 100, 1),
        depthView := σ.state.depth_view, depthLoadOp := .Clear, depthStoreOp := .Store,
        depthClearValue := 1 }
    let r := σ.create (.wgpuCommandEncoderBeginRenderPass encoder render_pass_desc)
    let render_pass := r.1
    let σ := r.2
    let σ := σ.emit (.wgpuRenderPassEncoderSetPipeline render_pass σ.state.pipeline)
    let σ := σ.emit (.wgpuRenderPassEncoderSetBindGroup render_pass 0 σ.state.bind_group)
    let σ := σ.emit (.wgpuRenderPassEncoderSetVertexBuffer render_pass 0 σ.state.vertex_buffer 0
      sizeof_vertices)
    let σ := σ.emit (.wgpuRenderPassEncoderSetIndexBuffer render_pass σ.state.index_buffer .Uint32 0
      sizeof_indices)
    let σ := σ.emit (.wgpuRenderPassEncoderDrawIndexed render_pass 3 1 0 0 0)
    let σ := σ.emit (.wgpuRenderPassEncoderEnd render_pass)
    let σ := σ.emit (.wgpuRenderPassEncoderRelease render_pass)
    let c := σ.create (.wgpuCommandEncoderFinish encoder)
    let command_buffer := c.1
    let σ := c.2
    let σ := σ.emit (.wgpuCommandEncoderRelease encoder)
    let σ := σ.emit (.wgpuQueueSubmit σ.state.queue [command_buffer])
    let σ := σ.emit (.wgpuCommandBufferRelease command_buffer)
    let σ := σ.emit (.wgpuSurfacePresent σ.state.surface)
    let σ := σ.emit (.wgpuTextureViewRelease surface_view)
    σ.emit (.wgpuTextureRelease surface_texture)

def cleanup (σ : Sys K) : Sys K :=
  let σ := if σ.state.pipeline ≠ NULL then
    σ.emit (.wgpuRenderPipelineRelease σ.state.pipeline) else σ
  let σ := if σ.state.bind_group ≠ NULL then
    σ.emit (.wgpuBindGroupRelease σ.state.bind_group) else σ
  let σ := if σ.state.bind_group_layout ≠ NULL then
    σ.emit (.wgpuBindGroupLayoutRelease σ.state.bind_group_layout) else σ
  let σ := if σ.state.uniform_buffer ≠ NULL then
    σ.emit (.wgpuBufferRelease σ.state.uniform_buffer) else σ
  let σ := if σ.state.index_buffer ≠ NULL then
    σ.emit (.wgpuBufferRelease σ.state.index_buffer) else σ
  let σ := if σ.state.vertex_buffer ≠ NULL then
    σ.emit (.wgpuBufferRelease σ.state.vertex_buffer) else σ
  let σ := if σ.state.depth_view ≠ NULL then
    σ.emit (.wgpuTextureViewRelease σ.state.depth_view) else σ
  let σ := if σ.state.depth_texture ≠ NULL then
    (σ.emit (.wgpuTextureDestroy σ.state.depth_texture)).emit
      (.wgpuTextureRelease σ.state.depth_texture)
    else σ
  let σ := if σ.state.queue ≠ NULL then σ.emit (.wgpuQueueRelease σ.state.queue) else σ
  let σ := if σ.state.device ≠ NULL then σ.emit (.wgpuDeviceRelease σ.state.device) else σ
  let σ := if σ.state.adapter ≠ NULL then σ.emit (.wgpuAdapterRelease σ.state.adapter) else σ
  let σ := if σ.state.surface ≠ NULL then σ.emit (.wgpuSurfaceRelease σ.state.surface) else σ
  if σ.state.instance_ ≠ NULL then σ.emit (.wgpuInstanceRelease σ.state.instance_) else σ

/-! ## The event loop of `main` -/

/-- The events `main` distinguishes; `data1` and `data2` are `Sint32`. -/
inductive SDL_Event where
  | SDL_QUIT
  | SDL_KEYDOWN (scancode : Nat)
  | SDL_WINDOWEVENT (event : Nat) (data1 data2 : Int)
  | other
  deriving DecidableEq

def SDL_SCANCODE_ESCAPE : Nat := 41
def SDL_WINDOWEVENT_RESIZED : Nat := 5

/-- The C conversion `(uint32_t)x`. -/
def to_uint32 (x : Int) : Nat := (x % 2 ^ 32).toNat

/-- The locals of `main` that live across iterations. -/
structure Loop (K : Type) where
  sys : Sys K
  last_time : Nat
  running : Bool

/-- One pass of the outer loop: the events `SDL_PollEvent` delivers, the value
of `SDL_GetPerformanceCounter`, and the status of the frame acquisition. -/
structure Tick where
  events : List SDL_Event
  now : Nat
  acquire : WGPUSurfaceGetCurrentTextureStatus
  deriving DecidableEq

/-- The `State state = {0}` of `main`. -/
def State.zero : State K :=
  { instance_ := NULL, surface := NULL, adapter := NULL, device := NULL, queue := NULL,
    surface_config := WGPUSurfaceConfiguration.zero, depth_texture := NULL, depth_view := NULL,
    pipeline := NULL, vertex_buffer := NULL, index_buffer := NULL, uniform_buffer := NULL,
    bind_group := NULL, bind_group_layout := NULL, model := 0, width := 0, height := 0,
    initialized := false }

/-- The state `main` hands to `init_wgpu`: zeroed, 800 by 600, no GPU call made yet. -/
def Sys.boot : Sys K :=
  { state := { (State.zero : State K) with width := 800, height := 600 }, next := 1, trace := [] }

/-- The body of the `switch (event.type)`. -/
def handle_event (m : Loop K) : SDL_Event → Loop K
  | .SDL_QUIT => { m with running := false }
  | .SDL_KEYDOWN scancode =>
    if scancode = SDL_SCANCODE_ESCAPE then { m with running := false } else m
  | .SDL_WINDOWEVENT event data1 data2 =>
    if event = SDL_WINDOWEVENT_RESIZED then
      let new_width := to_uint32 data1
      let new_height := to_uint32 data2
      if new_width > 0 ∧ new_height > 0 then
        { m with sys := resize m.sys new_width new_height }
      else m
    else m
  | .other => m

/-- One iteration of `while (running)`. -/
def iteration (L : Libm K) (frequency : Nat) (m : Loop K) (t : Tick) : Loop K :=
  let m := t.events.foldl handle_event m
  if !m.sys.state.initialized then m
  else
    let now := t.now
    let delta_time : K := (((now + 2 ^ 64 - m.last_time) % 2 ^ 64 : Nat) : K) / (frequency : K)
    let m := { m with last_time := now }
    let m := { m with sys := update L m.sys delta_time }
    { m with sys := render m.sys t.acquire }

/-- The loop `while (running)`, run over the ticks supplied. -/
def main_loop (L : Libm K) (frequency : Nat) : Loop K → List Tick → Loop K
  | m, [] => m
  | m, t :: ts => if m.running then main_loop L frequency (iteration L frequency m t) ts else m

/-- What `main` has done once the ticks are used up: its exit code if it has
returned, and the GPU side. -/
structure Outcome (K : Type) where
  sys : Sys K
  exit_code : Option Nat

/-- The function `main`. `counter` is the first `SDL_GetPerformanceCounter`
value. When the ticks run out while `running` is still true the program has
not left the loop: no cleanup yet, no exit code. -/
def main (L : Libm K) (P : Platform) (counter frequency : Nat) (ticks : List Tick) : Outcome K :=
  if !P.sdl_init_ok then { sys := Sys.boot, exit_code := some 1 }
  else if !P.window_ok then { sys := Sys.boot, exit_code := some 1 }
  else
    let σ := init_wgpu P Sys.boot
    let m := main_loop L frequency { sys := σ, last_time := counter, running := true } ticks
    if m.running then { sys := m.sys, exit_code := none }
    else { sys := cleanup m.sys, exit_code := some 0 }

end Program

/-! ## Reading a trace -/

/-- The kinds of GPU object the program handles. -/
inductive Kind where
  | Instance | Surface | Adapter | Device | Queue | Texture | TextureView | Buffer
  | BindGroupLayout | BindGroup | ShaderModule | PipelineLayout | RenderPipeline
  | CommandEncoder | RenderPassEncoder | CommandBuffer
  deriving DecidableEq

/-- The object a call returns to the program, which then owns it. -/
def Call.returns : Call K → Option (Kind × Nat)
  | .wgpuCreateInstance h => some (.Instance, h)
  | .wgpuInstanceCreateSurface _ h => some (.Surface, h)
  | .wgpuInstanceRequestAdapter _ _ _ _ h => some (.Adapter, h)
  | .wgpuAdapterRequestDevice _ _ h => some (.Device, h)
  | .wgpuDeviceGetQueue _ h => some (.Queue, h)
  | .wgpuDeviceCreateTexture _ _ h => some (.Texture, h)
  | .wgpuTextureCreateView _ h => some (.TextureView, h)
  | .wgpuDeviceCreateBuffer _ _ h => some (.Buffer, h)
  | .wgpuDeviceCreateBindGroupLayout _ _ h => some (.BindGroupLayout, h)
  | .wgpuDeviceCreateBindGroup _ _ h => some (.BindGroup, h)
  | .wgpuDeviceCreateShaderModule _ h => some (.ShaderModule, h)
  | .wgpuDeviceCreatePipelineLayout _ _ h => some (.PipelineLayout, h)
  | .wgpuDeviceCreateRenderPipeline _ _ h => some (.RenderPipeline, h)
  | .wgpuSurfaceGetCurrentTexture _ _ h => some (.Texture, h)
  | .wgpuDeviceCreateCommandEncoder _ h => some (.CommandEncoder, h)
  | .wgpuCommandEncoderBeginRenderPass _ _ h => some (.RenderPassEncoder, h)
  | .wgpuCommandEncoderFinish _ h => some (.CommandBuffer, h)
  | _ => none

/-- The object a release call gives up. -/
def Call.releases : Call K → Option (Kind × Nat)
  | .wgpuTextureRelease h => some (.Texture, h)
  | .wgpuTextureViewRelease h => some (.TextureView, h)
  | .wgpuShaderModuleRelease h => some (.ShaderModule, h)
  | .wgpuPipelineLayoutRelease h => some (.PipelineLayout, h)
  | .wgpuRenderPassEncoderRelease h => some (.RenderPassEncoder, h)
  | .wgpuCommandEncoderRelease h => some (.CommandEncoder, h)
  | .wgpuCommandBufferRelease h => some (.CommandBuffer, h)
  | .wgpuRenderPipelineRelease h => some (.RenderPipeline, h)
  | .wgpuBindGroupRelease h => some (.BindGroup, h)
  | .wgpuBindGroupLayoutRelease h => some (.BindGroupLayout, h)
  | .wgpuBufferRelease h => some (.Buffer, h)
  | .wgpuQueueRelease h => some (.Queue, h)
  | .wgpuDeviceRelease h => some (.Device, h)
  | .wgpuAdapterRelease h => some (.Adapter, h)
  | .wgpuSurfaceRelease h => some (.Surface, h)
  | .wgpuInstanceRelease h => some (.Instance, h)
  | _ => none

/-- The objects created over a trace, with their kinds, in order; a `NULL`
result is the failure of the call and creates nothing. -/
def createdIn (tr : List (Call K)) : List (Kind × Nat) :=
  (tr.filterMap Call.returns).filter fun e => e.2 ≠ NULL

/-- The handles of the objects created over a trace, in order. -/
def acquiredIn (tr : List (Call K)) : List Nat := (createdIn tr).map Prod.snd

/-- The handles passed to a release call over a trace, in order. -/
def releasedIn (tr : List (Call K)) : List Nat :=
  (tr.filterMap Call.releases).map Prod.snd

/-- The calls `σ'` has made beyond those of `σ`. -/
def emitted (σ σ' : Sys K) : List (Call K) := σ'.trace.drop σ.trace.length

/-- Record several calls. -/
def Sys.emits (σ : Sys K) (l : List (Call K)) : Sys K := { σ with trace := σ.trace ++ l }

/-- The handle fields of the struct with the kind of object each holds, in the
order `cleanup` visits them. -/
def State.owned (s : State K) : List (Kind × Nat) :=
  [(.RenderPipeline, s.pipeline), (.BindGroup, s.bind_group),
   (.BindGroupLayout, s.bind_group_layout), (.Buffer, s.uniform_buffer),
   (.Buffer, s.index_buffer), (.Buffer, s.vertex_buffer), (.TextureView, s.depth_view),
   (.Texture, s.depth_texture), (.Queue, s.queue), (.Device, s.device),
   (.Adapter, s.adapter), (.Surface, s.surface), (.Instance, s.instance_)]

/-- The non-null handles held in the struct, in the order `cleanup` visits them. -/
def State.held (s : State K) : List Nat :=
  (s.owned.map Prod.snd).filter fun h => h ≠ NULL

/-- The bookkeeping of object lifetimes: `acq` lists the objects created so
far and `rel` the handles released so far; `L` lists the live objects (created
and not released) without repetition, objects are created once each with names
below `n`, and only created objects are released, once each. -/
def Books (L : List Nat) (n : Nat) (acq rel : List Nat) : Prop :=
  L.Nodup ∧
  (∀ h ∈ L, h ∈ acq ∧ h ∉ rel) ∧
  (∀ h ∈ acq, h ∉ rel → h ∈ L) ∧
  acq.Nodup ∧
  (∀ h ∈ acq, h < n) ∧
  rel.Nodup ∧
  (∀ h ∈ rel, h ∈ acq)

instance (L : List Nat) (n : Nat) (acq rel : List Nat) : Decidable (Books L n acq rel) := by
  unfold Books
  infer_instance

/-- The books of a trace. -/
def Ledger (L : List Nat) (n : Nat) (tr : List (Call K)) : Prop :=
  Books L n (acquiredIn tr) (releasedIn tr)

/-! ## Runs of the program's operations -/

/-- One call of `resize`, `update` or `render` on the bootstrapped state. -/
inductive Op (K : Type) where
  | resize (width height : Nat)
  | update (delta_time : K)
  | render (status : WGPUSurfaceGetCurrentTextureStatus)

section Runs

variable [LinearOrderedField K]

def Op.run (L : Libm K) (σ : Sys K) : Op K → Sys K
  | .resize width height => WgpuExample.resize σ width height
  | .update delta_time => WgpuExample.update L σ delta_time
  | .render status => WgpuExample.render σ status

/-- A sequence of calls, in order. -/
def run (L : Libm K) (σ : Sys K) (ops : List (Op K)) : Sys K := ops.foldl (Op.run L) σ

/-- The `delta_time` arguments of the `update` calls of a run, in order. -/
def deltas : List (Op K) → List K
  | [] => []
  | .update delta_time :: ops => delta_time :: deltas ops
  | _ :: ops => deltas ops

/-- The rotation by angle `a` about the +Y axis, column vectors on the right. -/
def rotation_y (L : Libm K) (a : K) : Mat4 K :=
  !![L.cosf a,    0, L.sinf a, 0;
     0,           1, 0,        0;
     -(L.sinf a), 0, L.cosf a, 0;
     0,           0, 0,        1]

end Runs

/-! ## The order of release the specification gives -/

/-- Each handle field with the calls that dispose of it, in the order of the
specification: pipeline, bind group, bind group layout, uniform buffer, index
buffer, vertex buffer, depth view, depth texture (destroy, then release), queue,
device, adapter, surface, instance. -/
def release_order (s : State K) : List (Nat × List (Call K)) :=
  [(s.pipeline, [.wgpuRenderPipelineRelease s.pipeline]),
   (s.bind_group, [.wgpuBindGroupRelease s.bind_group]),
   (s.bind_group_layout, [.wgpuBindGroupLayoutRelease s.bind_group_layout]),
   (s.uniform_buffer, [.wgpuBufferRelease s.uniform_buffer]),
   (s.index_buffer, [.wgpuBufferRelease s.index_buffer]),
   (s.vertex_buffer, [.wgpuBufferRelease s.vertex_buffer]),
   (s.depth_view, [.wgpuTextureViewRelease s.depth_view]),
   (s.depth_texture, [.wgpuTextureDestroy s.depth_texture, .wgpuTextureRelease s.depth_texture]),
   (s.queue, [.wgpuQueueRelease s.queue]),
   (s.device, [.wgpuDeviceRelease s.device]),
   (s.adapter, [.wgpuAdapterRelease s.adapter]),
   (s.surface, [.wgpuSurfaceRelease s.surface]),
   (s.instance_, [.wgpuInstanceRelease s.instance_])]

/-- The order of release restricted to the fields that are not null. -/
def release_sequence (s : State K) : List (Call K) :=
  ((release_order s).filter fun e => e.1 ≠ NULL).flatMap Prod.snd

/-! ## Classifying calls -/

/-- The steps of a frame the specification counts: the begin and end of a
render pass, the pipeline binding, the draw, the submit and the present. -/
def Call.isFrameStep : Call K → Bool
  | .wgpuCommandEncoderBeginRenderPass _ _ _ => true
  | .wgpuRenderPassEncoderSetPipeline _ _ => true
  | .wgpuRenderPassEncoderDrawIndexed _ _ _ _ _ _ => true
  | .wgpuRenderPassEncoderEnd _ => true
  | .wgpuQueueSubmit _ _ => true
  | .wgpuSurfacePresent _ => true
  | _ => false

/-- A draw call. -/
def Call.isDraw : Call K → Bool
  | .wgpuRenderPassEncoderDrawIndexed _ _ _ _ _ _ => true
  | _ => false

/-- A call that only `update` makes. -/
def Call.isUniformWrite : Call K → Bool
  | .wgpuQueueWriteBuffer _ _ _ _ _ => true
  | _ => false

/-- A call that only `render` makes: the frame acquisition, the creation of the
transient view, encoder, pass and command buffer, the recording, the submit and
the present. -/
def Call.isRenderCall : Call K → Bool
  | .wgpuSurfaceGetCurrentTexture _ _ _ => true
  | .wgpuDeviceCreateCommandEncoder _ _ => true
  | .wgpuCommandEncoderBeginRenderPass _ _ _ => true
  | .wgpuRenderPassEncoderSetPipeline _ _ => true
  | .wgpuRenderPassEncoderSetBindGroup _ _ _ => true
  | .wgpuRenderPassEncoderSetVertexBuffer _ _ _ _ _ => true
  | .wgpuRenderPassEncoderSetIndexBuffer _ _ _ _ _ => true
  | .wgpuRenderPassEncoderDrawIndexed _ _ _ _ _ _ => true
  | .wgpuRenderPassEncoderEnd _ => true
  | .wgpuRenderPassEncoderRelease _ => true
  | .wgpuCommandEncoderFinish _ _ => true
  | .wgpuCommandEncoderRelease _ => true
  | .wgpuQueueSubmit _ _ => true
  | .wgpuCommandBufferRelease _ => true
  | .wgpuSurfacePresent _ => true
  | _ => false

/-- The calls of a frame that a skipped frame must not make: creating a view,
an encoder or a render pass, drawing, submitting, presenting. -/
def Call.isFrameWork : Call K → Bool
  | .wgpuTextureCreateView _ _ => true
  | .wgpuDeviceCreateCommandEncoder _ _ => true
  | .wgpuCommandEncoderBeginRenderPass _ _ _ => true
  | .wgpuRenderPassEncoderDrawIndexed _ _ _ _ _ _ => true
  | .wgpuQueueSubmit _ _ => true
  | .wgpuSurfacePresent _ => true
  | _ => false

/-- A GPU call that `resize` makes: configuring the surface, or destroying,
releasing or creating a texture or a view. -/
def Call.isResizeWork : Call K → Bool
  | .wgpuSurfaceConfigure _ _ => true
  | .wgpuTextureDestroy _ => true
  | .wgpuTextureRelease _ => true
  | .wgpuTextureViewRelease _ => true
  | .wgpuDeviceCreateTexture _ _ _ => true
  | .wgpuTextureCreateView _ _ => true
  | _ => false

/-- The configurations passed to `wgpuSurfaceConfigure` over a trace, in order. -/
def configuredIn (tr : List (Call K)) : List WGPUSurfaceConfiguration :=
  tr.filterMap fun c => match c with
    | .wgpuSurfaceConfigure _ config => some config
    | _ => none

/-- The render pipelines created over a trace, with their descriptors. -/
def pipelinesIn (tr : List (Call K)) : List (Nat × WGPURenderPipelineDescriptor) :=
  tr.filterMap fun c => match c with
    | .wgpuDeviceCreateRenderPipeline _ desc h => some (h, desc)
    | _ => none

/-- The textures created by `wgpuDeviceCreateTexture` over a trace, with their descriptors. -/
def texturesIn (tr : List (Call K)) : List (Nat × WGPUTextureDescriptor) :=
  tr.filterMap fun c => match c with
    | .wgpuDeviceCreateTexture _ desc h => some (h, desc)
    | _ => none

/-- The descriptor with which texture `h` was created: that of the latest
`wgpuDeviceCreateTexture` call of the trace that returned `h`. -/
def textureDescriptorOf (tr : List (Call K)) (h : Nat) : Option WGPUTextureDescriptor :=
  ((texturesIn tr).reverse.find? fun e => e.1 = h).map Prod.snd

/-! ## Invariants of the reachable states -/

/-- Every handle field of the struct is set. -/
def State.complete (s : State K) : Prop := ∀ e ∈ s.owned, e.2 ≠ NULL

instance (s : State K) : Decidable s.complete := by
  unfold State.complete
  infer_instance

/-- What holds of every state reached from the bootstrap: the books of object
lifetimes balance against the handle fields of the struct, every handle field
that is set holds an object of its kind created in the trace, a struct marked
initialized has all its handle fields set, and its pipeline is one created in
the trace. -/
structure Sound (σ : Sys K) : Prop where
  ledger : Ledger σ.state.held σ.next σ.trace
  next_pos : 0 < σ.next
  created : ∀ e ∈ σ.state.owned, e.2 ≠ NULL → e ∈ createdIn σ.trace
  complete : σ.state.initialized = true → σ.state.complete
  pipeline : σ.state.initialized = true →
    σ.state.pipeline ∈ (pipelinesIn σ.trace).map Prod.fst

/-- The sizes agree: while initialized, the struct's size, the surface
configuration and the descriptor the depth texture was created with carry the
same width and height, and neither is zero; every `wgpuSurfaceConfigure` call and
every depth texture creation so far had a non-zero width and height. -/
structure Sized (σ : Sys K) : Prop where
  width_pos : 0 < σ.state.width
  height_pos : 0 < σ.state.height
  config : σ.state.initialized = true →
    σ.state.surface_config.width = σ.state.width ∧
    σ.state.surface_config.height = σ.state.height
  configured : ∀ c ∈ configuredIn σ.trace, 0 < c.width ∧ 0 < c.height
  textures : ∀ e ∈ texturesIn σ.trace, 0 < e.2.width ∧ 0 < e.2.height

/-! ## Concrete inputs -/

/-- A platform on which every stage of the bootstrap succeeds. -/
def Platform.good : Platform :=
  { sdl_init_ok := true, window_ok := true, instance_ok := true, wm_info_ok := true,
    surface_ok := true, adapter_status := .Success, device_status := .Success,
    caps_status := .Success, caps_format := .Other 23, caps_alpha := 1 }

/-- A platform on which surface creation fails: only the instance exists. -/
def Platform.no_surface : Platform := { Platform.good with surface_ok := false }

/-- A rational stand-in for libm, to run the model on concrete input: the
rational parametrisation of the circle for `cosf` and `sinf`, a crude `tanf`, and
a square root that is exact on squares of integers. -/
def Libm.rational : Libm ℚ :=
  { pi := 22 / 7,
    cosf := fun x => (1 - x ^ 2) / (1 + x ^ 2),
    sinf := fun x => 2 * x / (1 + x ^ 2),
    tanf := fun x => 2 * x / (1 - x ^ 2),
    sqrtf := fun x => (Nat.sqrt x.num.toNat : ℚ) / (Nat.sqrt x.den : ℚ) }

/-- The depth texture the struct holds was created with the width and height
of the surface configuration, which are those of the struct. -/
def DepthMatches (σ : Sys K) : Prop :=
  ∃ d, textureDescriptorOf σ.trace σ.state.depth_texture = some d ∧
    d.width = σ.state.surface_config.width ∧ d.height = σ.state.surface_config.height ∧
    d.width = σ.state.width ∧ d.height = σ.state.height

/-! ## What the loop of `main` can do -/

/-- The calls the loop of `main` makes: a `resize` only with a non-zero width
and height, an `update` or a `render` only when the struct is initialized
(`ready`). -/
def Op.guarded (ready : Bool) : Op K → Prop
  | .resize width height => 0 < width ∧ 0 < height
  | .update _ => ready = true
  | .render _ => ready = true

/-- A call made by `update` or `render` and by no other function. -/
def Call.isFrameCall (c : Call K) : Bool := c.isUniformWrite || c.isRenderCall

/-- One pass of the loop: the window is resized to 1024 by 768, then a frame. -/
def Tick.resized : Tick :=
  { events := [.SDL_WINDOWEVENT SDL_WINDOWEVENT_RESIZED 1024 768], now := 1000,
    acquire := .SuccessOptimal }

/-- One pass of the loop: the window is minimized (a resize to 0 by 0), then a frame. -/
def Tick.minimized : Tick :=
  { events := [.SDL_WINDOWEVENT SDL_WINDOWEVENT_RESIZED 0 0], now := 2000,
    acquire := .Outdated }

/-! ## The uniform contents the specification gives -/

/-- The aspect ratio of the specification: `width / max(height, 1)`. -/
def aspect_spec [LinearOrderedField K] (width height : Nat) : K :=
  (width : K) / ((max height 1 : Nat) : K)

/-- The matrix the specification puts in the uniform buffer:
`projection(fov = 80 degrees, aspect, near = 0.1, far = 1000) *
view(eye = (0, 0, 3), target = origin, up = +Y) * model`, as a product of matrices. -/
def mvp_spec [LinearOrderedField K] (L : Libm K) (width height : Nat) (model : Mat4 K) :
    Mat4 K :=
  glm_perspective L (80 * L.pi / 180) (aspect_spec width height) (1 / 10) 1000 *
    glm_lookat L ![0, 0, 3] ![0, 0, 0] ![0, 1, 0] * model

/-! # Theorems -/

@[simp] theorem Sys.emits_state (σ : Sys K) (l : List (Call K)) : (σ.emits l).state = σ.state := rfl
@[simp] theorem Sys.emits_next (σ : Sys K) (l : List (Call K)) : (σ.emits l).next = σ.next := rfl
@[simp] theorem Sys.emits_trace (σ : Sys K) (l : List (Call K)) :
    (σ.emits l).trace = σ.trace ++ l := rfl
@[simp] theorem Sys.emits_emits (σ : Sys K) (a b : List (Call K)) :
    (σ.emits a).emits b = σ.emits (a ++ b) := by
  simp [Sys.emits]
theorem Sys.ite_emit (c : Prop) [Decidable c] (σ : Sys K) (x : Call K) :
    (if c then σ.emit x else σ) = σ.emits (if c then [x] else []) := by
  split <;> simp [Sys.emits, Sys.emit]
theorem Sys.ite_emit_emit (c : Prop) [Decidable c] (σ : Sys K) (x y : Call K) :
    (if c then (σ.emit x).emit y else σ) = σ.emits (if c then [x, y] else []) := by
  split <;> simp [Sys.emits, Sys.emit]
@[simp] theorem Sys.emit_state (σ : Sys K) (c : Call K) : (σ.emit c).state = σ.state := rfl
@[simp] theorem Sys.emit_next (σ : Sys K) (c : Call K) : (σ.emit c).next = σ.next := rfl
@[simp] theorem Sys.emit_trace (σ : Sys K) (c : Call K) : (σ.emit c).trace = σ.trace ++ [c] := rfl
@[simp] theorem Sys.set_state (σ : Sys K) (f : State K → State K) : (σ.set f).state = f σ.state := rfl
@[simp] theorem Sys.set_next (σ : Sys K) (f : State K → State K) : (σ.set f).next = σ.next := rfl
@[simp] theorem Sys.set_trace (σ : Sys K) (f : State K → State K) : (σ.set f).trace = σ.trace := rfl
@[simp] theorem Sys.create_fst (σ : Sys K) (mk : Nat → Call K) : (σ.create mk).1 = σ.next := rfl
@[simp] theorem Sys.create_state (σ : Sys K) (mk : Nat → Call K) :
    (σ.create mk).2.state = σ.state := rfl
@[simp] theorem Sys.create_next (σ : Sys K) (mk : Nat → Call K) :
    (σ.create mk).2.next = σ.next + 1 := rfl
@[simp] theorem Sys.create_trace (σ : Sys K) (mk : Nat → Call K) :
    (σ.create mk).2.trace = σ.trace ++ [mk σ.next] := rfl

/-! ## Object lifetimes -/

theorem createdIn_append (a b : List (Call K)) : createdIn (a ++ b) = createdIn a ++ createdIn b := by
  simp [createdIn]
theorem acquiredIn_append (a b : List (Call K)) :
    acquiredIn (a ++ b) = acquiredIn a ++ acquiredIn b := by
  simp [acquiredIn, createdIn_append]
theorem releasedIn_append (a b : List (Call K)) :
    releasedIn (a ++ b) = releasedIn a ++ releasedIn b := by
  simp [releasedIn]

/-- A block of calls that creates the next `k` objects and releases live ones keeps the books. -/
theorem Ledger.block {L L' : List Nat} {n k : Nat} {tr cs : List (Call K)}
    (h : Ledger L n tr)
    (hacq : acquiredIn cs = List.range' n k)
    (hreln : (releasedIn cs).Nodup)
    (hrel : ∀ x ∈ releasedIn cs, x ∈ L ∨ x ∈ acquiredIn cs)
    (hnd : L'.Nodup)
    (hL : ∀ x, x ∈ L' ↔ (x ∈ L ∨ x ∈ acquiredIn cs) ∧ x ∉ releasedIn cs) :
    Ledger L' (n + k) (tr ++ cs) := by
  obtain ⟨h1, h2, h3, h4, h5, h6, h7⟩ := h
  have hfresh : ∀ x ∈ acquiredIn cs, n ≤ x ∧ x < n + k := by
    intro x hx
    rw [hacq, List.mem_range'_1] at hx
    exact hx
  refine ⟨hnd, ?_, ?_, ?_, ?_, ?_, ?_⟩
  · intro x hx
    rw [acquiredIn_append, releasedIn_append, List.mem_append, List.mem_append]
    obtain ⟨hx1, hx2⟩ := (hL x).1 hx
    refine ⟨?_, ?_⟩
    · rcases hx1 with hx1 | hx1
      · exact Or.inl (h2 x hx1).1
      · exact Or.inr hx1
    · rintro (hr | hr)
      · rcases hx1 with hx1 | hx1
        · exact (h2 x hx1).2 hr
        · have := h5 x (h7 x hr)
          have := (hfresh x hx1).1
          omega
      · exact hx2 hr
  · intro x hx hnr
    rw [acquiredIn_append, List.mem_append] at hx
    rw [releasedIn_append, List.mem_append, not_or] at hnr
    refine (hL x).2 ⟨?_, hnr.2⟩
    rcases hx with hx | hx
    · exact Or.inl (h3 x hx hnr.1)
    · exact Or.inr hx
  · rw [acquiredIn_append, List.nodup_append]
    refine ⟨h4, ?_, ?_⟩
    · rw [hacq]; exact List.nodup_range' n k
    · intro x hx hx'
      have := h5 x hx
      have := (hfresh x hx').1
      omega
  · intro x hx
    rw [acquiredIn_append, List.mem_append] at hx
    rcases hx with hx | hx
    · have := h5 x hx; omega
    · exact (hfresh x hx).2
  · rw [releasedIn_append, List.nodup_append]
    refine ⟨h6, hreln, ?_⟩
    intro x hx hx'
    rcases hrel x hx' with hl | ha
    · exact (h2 x hl).2 hx
    · have := h5 x (h7 x hx)
      have := (hfresh x ha).1
      omega
  · intro x hx
    rw [releasedIn_append, List.mem_append] at hx
    rw [acquiredIn_append, List.mem_append]
    rcases hx with hx | hx
    · exact Or.inl (h7 x hx)
    · rcases hrel x hx with hl | ha
      · exact Or.inl (h2 x hl).1
      · exact Or.inr ha

/-- Every live object has a name below the next unused one. -/
theorem Ledger.lt {L : List Nat} {n : Nat} {tr : List (Call K)} (h : Ledger L n tr) :
    ∀ x ∈ L, x < n := fun x hx => h.2.2.2.2.1 x (h.2.1 x hx).1

/-- Calls that neither create nor release keep the books. -/
theorem Ledger.neutral {L : List Nat} {n : Nat} {tr cs : List (Call K)}
    (h : Ledger L n tr) (hacq : acquiredIn cs = []) (hrel : releasedIn cs = []) :
    Ledger L n (tr ++ cs) := by
  have := @Ledger.block K L L n 0 tr cs h (by simp [hacq]) (by simp [hrel])
    (by simp [hrel]) h.1 (by simp [hacq, hrel])
  simpa using this

/-- Creating the next `k` objects and releasing them again keeps the books. -/
theorem Ledger.transient {L : List Nat} {n k : Nat} {tr cs : List (Call K)}
    (h : Ledger L n tr) (hacq : acquiredIn cs = List.range' n k)
    (hreln : (releasedIn cs).Nodup) (hrel : ∀ x, x ∈ releasedIn cs ↔ x ∈ acquiredIn cs) :
    Ledger L (n + k) (tr ++ cs) := by
  refine Ledger.block h hacq hreln ?_ h.1 ?_
  · intro x hx
    exact Or.inr ((hrel x).1 hx)
  · intro x
    rw [hrel x, hacq]
    constructor
    · intro hx
      refine ⟨Or.inl hx, ?_⟩
      intro hx'
      have := h.lt x hx
      rw [List.mem_range'_1] at hx'
      omega
    · rintro ⟨hx | hx, hx'⟩
      · exact hx
      · exact absurd hx hx'

/-- Replacing two live objects by the next two new ones keeps the books. -/
theorem Ledger.replace2 {A B : List Nat} {v t n : Nat} {tr cs : List (Call K)}
    (h : Ledger (A ++ v :: t :: B) n tr)
    (hacq : acquiredIn cs = [n, n + 1]) (hrel : releasedIn cs = [t, v]) :
    Ledger (A ++ (n + 1) :: n :: B) (n + 2) (tr ++ cs) := by
  have hlt := h.lt
  have hnd := h.1
  have hA : ∀ x ∈ A, x < n ∧ x ≠ v ∧ x ≠ t := by
    intro x hx
    refine ⟨hlt x (by simp [hx]), ?_, ?_⟩
    · rintro rfl
      simp [List.nodup_append, hx] at hnd
    · rintro rfl
      simp [List.nodup_append, hx] at hnd
  have hB : ∀ x ∈ B, x < n ∧ x ≠ v ∧ x ≠ t := by
    intro x hx
    refine ⟨hlt x (by simp [hx]), ?_, ?_⟩
    · rintro rfl
      simp [List.nodup_append, hx] at hnd
    · rintro rfl
      simp [List.nodup_append, hx] at hnd
  have hv : v < n := hlt v (by simp)
  have ht : t < n := hlt t (by simp)
  have hvt : v ≠ t := by
    rintro rfl
    simp [List.nodup_append] at hnd
  refine Ledger.block (k := 2) h (by simp [hacq, List.range']) (by simp [hrel, hvt.symm]) ?_ ?_ ?_
  · intro x hx
    simp [hrel] at hx
    rcases hx with rfl | rfl <;> simp
  · simp only [List.nodup_append, List.nodup_cons, List.mem_cons, not_or] at hnd ⊢
    refine ⟨hnd.1, ⟨⟨?_, ?_⟩, ?_, hnd.2.1.2.2⟩, ?_⟩
    · omega
    · intro hx; have := (hB _ hx).1; omega
    · intro hx; have := (hB _ hx).1; omega
    · intro x hx hx'
      simp only [List.mem_cons] at hx'
      rcases hx' with rfl | rfl | hx'
      · have := (hA _ hx).1; omega
      · have := (hA _ hx).1; omega
      · exact hnd.2.2 hx (by simp [hx'])
  · intro x
    simp only [hacq, hrel, List.mem_append, List.mem_cons, List.mem_singleton, not_or,
      List.not_mem_nil, or_false]
    constructor
    · rintro (hx | rfl | rfl | hx)
      · have := hA x hx
        exact ⟨Or.inl (Or.inl hx), this.2.2, this.2.1⟩
      · exact ⟨Or.inr (Or.inr rfl), by omega, by omega⟩
      · exact ⟨Or.inr (Or.inl rfl), by omega, by omega⟩
      · have := hB x hx
        exact ⟨Or.inl (Or.inr (Or.inr (Or.inr hx))), this.2.2, this.2.1⟩
    · rintro ⟨(hx | rfl | rfl | hx) | rfl | rfl, h1, h2⟩
      · exact Or.inl hx
      · exact absurd rfl h2
      · exact absurd rfl h1
      · exact Or.inr (Or.inr (Or.inr hx))
      · exact Or.inr (Or.inr (Or.inl rfl))
      · exact Or.inr (Or.inl rfl)
/-! ## What each function does -/

theorem emitted_eq {σ σ' : Sys K} {cs : List (Call K)} (h : σ'.trace = σ.trace ++ cs) :
    emitted σ σ' = cs := by
  simp [emitted, h]

theorem filter_flatMap {α β : Type} (p : α → Bool) (f : α → List β) (l : List α) :
    (l.filter p).flatMap f = l.flatMap fun x => if p x then f x else [] := by
  induction l with
  | nil => rfl
  | cons a l ih =>
    by_cases h : p a <;> simp [List.filter_cons, h, ih]

theorem cleanup_eq (σ : Sys K) : cleanup σ = σ.emits (release_sequence σ.state) := by
  simp only [cleanup, Sys.ite_emit, Sys.ite_emit_emit, Sys.emits_state, Sys.emits_emits]
  simp [release_sequence, release_order, filter_flatMap]

theorem create_depth_texture_trace (σ : Sys K) :
    (create_depth_texture σ).trace = σ.trace ++
      ((if σ.state.depth_texture ≠ NULL then
          [Call.wgpuTextureDestroy σ.state.depth_texture,
           Call.wgpuTextureRelease σ.state.depth_texture] else []) ++
       (if σ.state.depth_view ≠ NULL then [Call.wgpuTextureViewRelease σ.state.depth_view] else []) ++
       [Call.wgpuDeviceCreateTexture σ.state.device
          { width := σ.state.width, height := σ.state.height, depthOrArrayLayers := 1,
            mipLevelCount := 1, sampleCount := 1, dimension := .D2, format := DEPTH_FORMAT,
            usage := WGPUTextureUsage_RenderAttachment } σ.next,
        Call.wgpuTextureCreateView σ.next (σ.next + 1)]) := by
  simp only [create_depth_texture, Sys.ite_emit, Sys.ite_emit_emit, Sys.emits_state,
    Sys.emits_emits, Sys.create_trace, Sys.set_trace, Sys.set_state, Sys.create_state,
    Sys.create_fst, Sys.emits_trace, Sys.emits_next, Sys.create_next, Sys.set_next]
  simp

theorem create_depth_texture_next (σ : Sys K) : (create_depth_texture σ).next = σ.next + 2 := by
  simp only [create_depth_texture, Sys.ite_emit, Sys.ite_emit_emit, Sys.emits_state,
    Sys.emits_emits, Sys.create_trace, Sys.set_trace, Sys.set_state, Sys.create_state,
    Sys.create_fst, Sys.emits_trace, Sys.emits_next, Sys.create_next, Sys.set_next]

theorem create_depth_texture_state (σ : Sys K) : (create_depth_texture σ).state =
    { σ.state with depth_texture := σ.next, depth_view := σ.next + 1 } := by
  simp only [create_depth_texture, Sys.ite_emit, Sys.ite_emit_emit, Sys.emits_state,
    Sys.emits_emits, Sys.create_trace, Sys.set_trace, Sys.set_state, Sys.create_state,
    Sys.create_fst, Sys.emits_trace, Sys.emits_next, Sys.create_next, Sys.set_next]

theorem resize_not_initialized (σ : Sys K) (width height : Nat)
    (h : σ.state.initialized = false) : resize σ width height = σ := by
  simp [resize, h]

theorem resize_state (σ : Sys K) (width height : Nat) (h : σ.state.initialized = true) :
    (resize σ width height).state =
      { σ.state with
        width := width, height := height,
        surface_config := { σ.state.surface_config with width := width, height := height },
        depth_texture := σ.next, depth_view := σ.next + 1 } := by
  simp [resize, h, create_depth_texture_state]

theorem resize_next (σ : Sys K) (width height : Nat) (h : σ.state.initialized = true) :
    (resize σ width height).next = σ.next + 2 := by
  simp [resize, h, create_depth_texture_next]

theorem resize_trace (σ : Sys K) (width height : Nat) (h : σ.state.initialized = true) :
    (resize σ width height).trace = σ.trace ++
      ([Call.wgpuSurfaceConfigure σ.state.surface
          { σ.state.surface_config with width := width, height := height }] ++
       (if σ.state.depth_texture ≠ NULL then
          [Call.wgpuTextureDestroy σ.state.depth_texture,
           Call.wgpuTextureRelease σ.state.depth_texture] else []) ++
       (if σ.state.depth_view ≠ NULL then [Call.wgpuTextureViewRelease σ.state.depth_view] else []) ++
       [Call.wgpuDeviceCreateTexture σ.state.device
          { width := width, height := height, depthOrArrayLayers := 1,
            mipLevelCount := 1, sampleCount := 1, dimension := .D2, format := DEPTH_FORMAT,
            usage := WGPUTextureUsage_RenderAttachment } σ.next,
        Call.wgpuTextureCreateView σ.next (σ.next + 1)]) := by
  simp [resize, h, create_depth_texture_trace]

section FieldEffects
variable [LinearOrderedField K]

theorem update_owned (L : Libm K) (σ : Sys K) (dt : K) :
    (update L σ dt).state.owned = σ.state.owned := by
  simp [update, State.owned]

theorem update_next (L : Libm K) (σ : Sys K) (dt : K) : (update L σ dt).next = σ.next := by
  simp [update]

theorem update_initialized (L : Libm K) (σ : Sys K) (dt : K) :
    (update L σ dt).state.initialized = σ.state.initialized := by
  simp [update]

theorem update_trace (L : Libm K) (σ : Sys K) (dt : K) :
    ∃ m, (update L σ dt).trace = σ.trace ++
      [Call.wgpuQueueWriteBuffer σ.state.queue σ.state.uniform_buffer 0 m sizeof_UniformBuffer] := by
  exact ⟨_, by simp [update]; rfl⟩

theorem render_skip (σ : Sys K) (status : WGPUSurfaceGetCurrentTextureStatus)
    (h : status.isSuccess = false) :
    render σ status = σ.emit (.wgpuSurfaceGetCurrentTexture σ.state.surface status NULL) := by
  cases status <;> simp_all [render, Sys.createIf, WGPUSurfaceGetCurrentTextureStatus.isSuccess]

theorem render_state (σ : Sys K) (status : WGPUSurfaceGetCurrentTextureStatus) :
    (render σ status).state = σ.state := by
  cases status <;> simp [render, Sys.createIf, WGPUSurfaceGetCurrentTextureStatus.isSuccess]

theorem render_next (σ : Sys K) (status : WGPUSurfaceGetCurrentTextureStatus)
    (h : status.isSuccess = true) : (render σ status).next = σ.next + 5 := by
  cases status <;> simp_all [render, Sys.createIf, WGPUSurfaceGetCurrentTextureStatus.isSuccess]

theorem render_trace (σ : Sys K) (status : WGPUSurfaceGetCurrentTextureStatus)
    (h : status.isSuccess = true) :
    (render σ status).trace = σ.trace ++
      ([Call.wgpuSurfaceGetCurrentTexture σ.state.surface status σ.next,
       Call.wgpuTextureCreateView σ.next (σ.next + 1),
       Call.wgpuDeviceCreateCommandEncoder σ.state.device (σ.next + 2),
       Call.wgpuCommandEncoderBeginRenderPass (σ.next + 2)
         { colorView := σ.next + 1, colorLoadOp := .Clear, colorStoreOp := .Store,
           clearValue := (19 / 100, 24 / 100, 42 / 100, 1),
           depthView := σ.state.depth_view, depthLoadOp := .Clear, depthStoreOp := .Store,
           depthClearValue := 1 } (σ.next + 3),
       Call.wgpuRenderPassEncoderSetPipeline (σ.next + 3) σ.state.pipeline,
       Call.wgpuRenderPassEncoderSetBindGroup (σ.next + 3) 0 σ.state.bind_group,
       Call.wgpuRenderPassEncoderSetVertexBuffer (σ.next + 3) 0 σ.state.vertex_buffer 0
         sizeof_vertices,
       Call.wgpuRenderPassEncoderSetIndexBuffer (σ.next + 3) σ.state.index_buffer .Uint32 0
         sizeof_indices,
       Call.wgpuRenderPassEncoderDrawIndexed (σ.next + 3) 3 1 0 0 0,
       Call.wgpuRenderPassEncoderEnd (σ.next + 3),
       Call.wgpuRenderPassEncoderRelease (σ.next + 3),
       Call.wgpuCommandEncoderFinish (σ.next + 2) (σ.next + 4),
       Call.wgpuCommandEncoderRelease (σ.next + 2),
       Call.wgpuQueueSubmit σ.state.queue [σ.next + 4],
       Call.wgpuCommandBufferRelease (σ.next + 4),
       Call.wgpuSurfacePresent σ.state.surface,
       Call.wgpuTextureViewRelease (σ.next + 1),
       Call.wgpuTextureRelease σ.next] : List (Call K)) := by
  cases status <;>
    simp_all [render, Sys.createIf, WGPUSurfaceGetCurrentTextureStatus.isSuccess, Nat.add_assoc]

end FieldEffects
/-! ## The bootstrap, stage by stage -/

section Boot
variable [LinearOrderedField K]

theorem init_wgpu_no_instance (P : Platform) (hi : P.instance_ok = false) :
    init_wgpu P (Sys.boot : Sys K) = Sys.boot.emit (.wgpuCreateInstance NULL) := by
  simp [init_wgpu, Sys.createIf, hi, Sys.boot, State.zero, Sys.set, Sys.emit]

theorem init_wgpu_no_wm_info (P : Platform) (hi : P.instance_ok = true)
    (hw : P.wm_info_ok = false) :
    init_wgpu P (Sys.boot : Sys K) =
      { state := { (Sys.boot : Sys K).state with instance_ := 1 }, next := 2,
        trace := [.wgpuCreateInstance 1] } := by
  simp [init_wgpu, Sys.createIf, hi, hw, Sys.boot, State.zero, Sys.set, Sys.emit, Sys.create,
    create_surface_from_sdl]

theorem init_wgpu_no_surface (P : Platform) (hi : P.instance_ok = true)
    (hw : P.wm_info_ok = true) (hs : P.surface_ok = false) :
    init_wgpu P (Sys.boot : Sys K) =
      { state := { (Sys.boot : Sys K).state with instance_ := 1 }, next := 2,
        trace := [.wgpuCreateInstance 1, .wgpuInstanceCreateSurface 1 NULL] } := by
  simp [init_wgpu, Sys.createIf, hi, hw, hs, Sys.boot, State.zero, Sys.set, Sys.emit, Sys.create,
    create_surface_from_sdl]

theorem init_wgpu_no_adapter (P : Platform) (hi : P.instance_ok = true)
    (hw : P.wm_info_ok = true) (hs : P.surface_ok = true)
    (ha : P.adapter_status ≠ .Success) :
    init_wgpu P (Sys.boot : Sys K) =
      { state := { (Sys.boot : Sys K).state with instance_ := 1, surface := 2 }, next := 3,
        trace := [.wgpuCreateInstance 1, .wgpuInstanceCreateSurface 1 2,
          .wgpuInstanceRequestAdapter 1 2 .HighPerformance P.adapter_status NULL] } := by
  simp [init_wgpu, Sys.createIf, hi, hw, hs, ha, Sys.boot, State.zero, Sys.set, Sys.emit,
    Sys.create, create_surface_from_sdl, adapter_request_callback]

theorem init_wgpu_no_device (P : Platform) (hi : P.instance_ok = true)
    (hw : P.wm_info_ok = true) (hs : P.surface_ok = true)
    (ha : P.adapter_status = .Success) (hd : P.device_status ≠ .Success) :
    init_wgpu P (Sys.boot : Sys K) =
      { state := { (Sys.boot : Sys K).state with instance_ := 1, surface := 2, adapter := 3 },
        next := 4,
        trace := [.wgpuCreateInstance 1, .wgpuInstanceCreateSurface 1 2,
          .wgpuInstanceRequestAdapter 1 2 .HighPerformance .Success 3,
          .wgpuAdapterRequestDevice 3 P.device_status NULL] } := by
  simp [init_wgpu, Sys.createIf, hi, hw, hs, ha, hd, Sys.boot, State.zero, Sys.set, Sys.emit,
    Sys.create, create_surface_from_sdl, adapter_request_callback, on_adapter,
    device_request_callback]

theorem init_wgpu_no_caps (P : Platform) (hi : P.instance_ok = true)
    (hw : P.wm_info_ok = true) (hs : P.surface_ok = true)
    (ha : P.adapter_status = .Success) (hd : P.device_status = .Success)
    (hc : P.caps_status ≠ .Success) :
    init_wgpu P (Sys.boot : Sys K) =
      { state := { (Sys.boot : Sys K).state with
          instance_ := 1, surface := 2, adapter := 3, device := 4, queue := 5 },
        next := 6,
        trace := [.wgpuCreateInstance 1, .wgpuInstanceCreateSurface 1 2,
          .wgpuInstanceRequestAdapter 1 2 .HighPerformance .Success 3,
          .wgpuAdapterRequestDevice 3 .Success 4,
          .wgpuDeviceGetQueue 4 5,
          .wgpuSurfaceGetCapabilities 2 3 P.caps_status] } := by
  simp [init_wgpu, Sys.createIf, hi, hw, hs, ha, hd, hc, Sys.boot, State.zero, Sys.set, Sys.emit,
    Sys.create, create_surface_from_sdl, adapter_request_callback, on_adapter,
    device_request_callback, on_device]

/-- The state in which `on_device` is entered when the first four stages succeed. -/
theorem init_wgpu_device (P : Platform) (hi : P.instance_ok = true)
    (hw : P.wm_info_ok = true) (hs : P.surface_ok = true)
    (ha : P.adapter_status = .Success) (hd : P.device_status = .Success) :
    init_wgpu P (Sys.boot : Sys K) = on_device P
      { state := { (Sys.boot : Sys K).state with
          instance_ := 1, surface := 2, adapter := 3, device := 4 },
        next := 5,
        trace := [.wgpuCreateInstance 1, .wgpuInstanceCreateSurface 1 2,
          .wgpuInstanceRequestAdapter 1 2 .HighPerformance .Success 3,
          .wgpuAdapterRequestDevice 3 .Success 4] } := by
  simp [init_wgpu, Sys.createIf, hi, hw, hs, ha, hd, Sys.boot, State.zero, Sys.set, Sys.emit,
    Sys.create, create_surface_from_sdl, adapter_request_callback, on_adapter,
    device_request_callback]

theorem on_device_state (P : Platform) (σ : Sys K) (hc : P.caps_status = .Success) :
    (on_device P σ).state =
      { σ.state with
        queue := σ.next,
        surface_config :=
          { device := σ.state.device, usage := WGPUTextureUsage_RenderAttachment,
            format := P.caps_format, width := σ.state.width, height := σ.state.height,
            presentMode := .Fifo, alphaMode := P.caps_alpha },
        depth_texture := σ.next + 1, depth_view := σ.next + 2, pipeline := σ.next + 10,
        vertex_buffer := σ.next + 3, index_buffer := σ.next + 4, uniform_buffer := σ.next + 5,
        bind_group := σ.next + 7, bind_group_layout := σ.next + 6,
        model := glm_mat4_identity, initialized := true } := by
  simp [on_device, hc, create_pipeline, create_buffers, create_depth_texture_state,
    create_depth_texture_next, create_depth_texture_trace, Nat.add_assoc]

theorem on_device_next (P : Platform) (σ : Sys K) (hc : P.caps_status = .Success) :
    (on_device P σ).next = σ.next + 11 := by
  simp [on_device, hc, create_pipeline, create_buffers, create_depth_texture_state,
    create_depth_texture_next, create_depth_texture_trace, Nat.add_assoc]

theorem on_device_trace (P : Platform) (σ : Sys K) (hc : P.caps_status = .Success) :
    (on_device P σ).trace = σ.trace ++
      ([Call.wgpuDeviceGetQueue σ.state.device σ.next,
        Call.wgpuSurfaceGetCapabilities σ.state.surface σ.state.adapter .Success,
        Call.wgpuSurfaceConfigure σ.state.surface
          { device := σ.state.device, usage := WGPUTextureUsage_RenderAttachment,
            format := P.caps_format, width := σ.state.width, height := σ.state.height,
            presentMode := .Fifo, alphaMode := P.caps_alpha }] ++
       (if σ.state.depth_texture ≠ NULL then
          [Call.wgpuTextureDestroy σ.state.depth_texture,
           Call.wgpuTextureRelease σ.state.depth_texture] else []) ++
       (if σ.state.depth_view ≠ NULL then [Call.wgpuTextureViewRelease σ.state.depth_view] else []) ++
       ([Call.wgpuDeviceCreateTexture σ.state.device
          { width := σ.state.width, height := σ.state.height, depthOrArrayLayers := 1,
            mipLevelCount := 1, sampleCount := 1, dimension := .D2, format := DEPTH_FORMAT,
            usage := WGPUTextureUsage_RenderAttachment } (σ.next + 1),
        Call.wgpuTextureCreateView (σ.next + 1) (σ.next + 2),
        Call.wgpuDeviceCreateBuffer σ.state.device
          { label := "Vertex Buffer", size := sizeof_vertices,
            usage := WGPUBufferUsage_Vertex ||| WGPUBufferUsage_CopyDst,
            mappedAtCreation := true } (σ.next + 3),
        Call.wgpuBufferGetMappedRange (σ.next + 3) 0 sizeof_vertices,
        Call.memcpy (σ.next + 3) .vertices sizeof_vertices,
        Call.wgpuBufferUnmap (σ.next + 3),
        Call.wgpuDeviceCreateBuffer σ.state.device
          { label := "Index Buffer", size := sizeof_indices,
            usage := WGPUBufferUsage_Index ||| WGPUBufferUsage_CopyDst,
            mappedAtCreation := true } (σ.next + 4),
        Call.wgpuBufferGetMappedRange (σ.next + 4) 0 sizeof_indices,
        Call.memcpy (σ.next + 4) .indices sizeof_indices,
        Call.wgpuBufferUnmap (σ.next + 4),
        Call.wgpuDeviceCreateBuffer σ.state.device
          { label := "Uniform Buffer", size := sizeof_UniformBuffer,
            usage := WGPUBufferUsage_Uniform ||| WGPUBufferUsage_CopyDst,
            mappedAtCreation := false } (σ.next + 5),
        Call.wgpuDeviceCreateBindGroupLayout σ.state.device
          { entryCount := 1, binding := 0, visibility := WGPUShaderStage_Vertex,
            bufferIsUniform := true } (σ.next + 6),
        Call.wgpuDeviceCreateBindGroup σ.state.device
          { layout := σ.next + 6, entryCount := 1, binding := 0, buffer := σ.next + 5,
            size := sizeof_UniformBuffer } (σ.next + 7),
        Call.wgpuDeviceCreateShaderModule σ.state.device (σ.next + 8),
        Call.wgpuDeviceCreatePipelineLayout σ.state.device (σ.next + 6) (σ.next + 9),
        Call.wgpuDeviceCreateRenderPipeline σ.state.device
          { layout := σ.next + 9, vertexModule := σ.next + 8, vertexEntryPoint := "vertex_main",
            arrayStride := sizeof_Vertex,
            attributes := [{ format := .Float32x4, offset := 0, shaderLocation := 0 },
                           { format := .Float32x4, offset := 16, shaderLocation := 1 }],
            topology := .TriangleList, frontFace := .CW, cullMode := .None,
            depthFormat := DEPTH_FORMAT, depthWriteEnabled := true, depthCompare := .Less,
            multisampleCount := 1, multisampleMask := 4294967295,
            fragmentModule := σ.next + 8, fragmentEntryPoint := "fragment_main",
            targetFormat := P.caps_format,
            blendColor := { srcFactor := .SrcAlpha, dstFactor := .OneMinusSrcAlpha,
                            operation := .Add },
            blendAlpha := { srcFactor := .One, dstFactor := .OneMinusSrcAlpha,
                            operation := .Add },
            writeMask := WGPUColorWriteMask_All } (σ.next + 10),
        Call.wgpuShaderModuleRelease (σ.next + 8),
        Call.wgpuPipelineLayoutRelease (σ.next + 9),
        Call.wgpuSurfaceCapabilitiesFreeMembers] : List (Call K))) := by
  simp [on_device, hc, create_pipeline, create_buffers, create_depth_texture_state,
    create_depth_texture_next, create_depth_texture_trace, Nat.add_assoc]

end Boot
/-! ## The invariant of object lifetimes -/

theorem pipelinesIn_append (a b : List (Call K)) :
    pipelinesIn (a ++ b) = pipelinesIn a ++ pipelinesIn b := by
  simp [pipelinesIn]

theorem State.held_eq_of_owned {s s' : State K} (h : s'.owned = s.owned) : s'.held = s.held := by
  simp [State.held, h]

/-- A step that leaves the handle fields alone, and creates and releases the
next `k` objects, keeps the invariant. -/
theorem Sound.step {σ σ' : Sys K} {k : Nat} {cs : List (Call K)} (h : Sound σ)
    (ho : σ'.state.owned = σ.state.owned)
    (hi : σ'.state.initialized = σ.state.initialized)
    (hn : σ'.next = σ.next + k) (ht : σ'.trace = σ.trace ++ cs)
    (hacq : acquiredIn cs = List.range' σ.next k)
    (hreln : (releasedIn cs).Nodup) (hrel : ∀ x, x ∈ releasedIn cs ↔ x ∈ acquiredIn cs) :
    Sound σ' := by
  have hp : σ'.state.pipeline = σ.state.pipeline := by
    have := congrArg (fun l => (l.map Prod.snd).head?) ho
    simpa [State.owned] using this
  refine ⟨?_, ?_, ?_, ?_, ?_⟩
  · rw [State.held_eq_of_owned ho, hn, ht]
    exact h.ledger.transient hacq hreln hrel
  · have := h.next_pos
    omega
  · intro e he hne
    rw [ho] at he
    rw [ht, createdIn_append]
    exact List.mem_append_left _ (h.created e he hne)
  · intro hinit
    rw [hi] at hinit
    unfold State.complete
    rw [ho]
    exact h.complete hinit
  · intro hinit
    rw [hi] at hinit
    rw [hp, ht, pipelinesIn_append, List.map_append]
    exact List.mem_append_left _ (h.pipeline hinit)

theorem sound_resize {σ : Sys K} (h : Sound σ) (width height : Nat) :
    Sound (resize σ width height) := by
  by_cases hi : σ.state.initialized = true
  swap
  · rw [resize_not_initialized σ width height (by simpa using hi)]
    exact h
  have hpos := h.next_pos
  have hn0 : σ.next ≠ 0 := by omega
  have hc := h.complete hi
  simp only [State.complete, State.owned, List.forall_mem_cons, List.not_mem_nil, NULL, ne_eq,
    false_imp_iff, implies_true, and_true] at hc
  obtain ⟨c1, c2, c3, c4, c5, c6, c7, c8, c9, c10, c11, c12, c13⟩ := hc
  have hl := h.ledger
  have hheld : σ.state.held =
      [σ.state.pipeline, σ.state.bind_group, σ.state.bind_group_layout, σ.state.uniform_buffer,
        σ.state.index_buffer, σ.state.vertex_buffer] ++
      σ.state.depth_view :: σ.state.depth_texture ::
      [σ.state.queue, σ.state.device, σ.state.adapter, σ.state.surface, σ.state.instance_] := by
    simp [State.held, State.owned, NULL, c1, c2, c3, c4, c5, c6, c7, c8, c9, c10, c11, c12, c13]
  have hheld' : (resize σ width height).state.held =
      [σ.state.pipeline, σ.state.bind_group, σ.state.bind_group_layout, σ.state.uniform_buffer,
        σ.state.index_buffer, σ.state.vertex_buffer] ++
      (σ.next + 1) :: σ.next ::
      [σ.state.queue, σ.state.device, σ.state.adapter, σ.state.surface, σ.state.instance_] := by
    simp [resize_state σ width height hi, State.held, State.owned, NULL, c1, c2, c3, c4, c5, c6,
      c9, c10, c11, c12, c13, hn0]
  have htr := resize_trace σ width height hi
  simp only [ne_eq, NULL, c7, c8, not_false_eq_true, if_true] at htr
  refine ⟨?_, ?_, ?_, ?_, ?_⟩
  · rw [hheld', resize_next σ width height hi, htr]
    rw [hheld] at hl
    refine hl.replace2 ?_ ?_
    · simp [acquiredIn, createdIn, Call.returns, NULL, hn0]
    · simp [releasedIn, Call.releases]
  · rw [resize_next σ width height hi]
    omega
  · intro e he _
    rw [htr, createdIn_append]
    simp only [resize_state σ width height hi, State.owned, List.mem_cons, List.not_mem_nil,
      or_false] at he
    have hc := h.created
    simp only [State.owned, List.forall_mem_cons, List.not_mem_nil, false_imp_iff, implies_true,
      and_true] at hc
    obtain ⟨d1, d2, d3, d4, d5, d6, d7, d8, d9, d10, d11, d12, d13⟩ := hc
    rcases he with rfl | rfl | rfl | rfl | rfl | rfl | rfl | rfl | rfl | rfl | rfl | rfl | rfl
    · exact List.mem_append_left _ (d1 c1)
    · exact List.mem_append_left _ (d2 c2)
    · exact List.mem_append_left _ (d3 c3)
    · exact List.mem_append_left _ (d4 c4)
    · exact List.mem_append_left _ (d5 c5)
    · exact List.mem_append_left _ (d6 c6)
    · exact List.mem_append_right _ (by simp [createdIn, Call.returns, NULL, hn0])
    · exact List.mem_append_right _ (by simp [createdIn, Call.returns, NULL, hn0])
    · exact List.mem_append_left _ (d9 c9)
    · exact List.mem_append_left _ (d10 c10)
    · exact List.mem_append_left _ (d11 c11)
    · exact List.mem_append_left _ (d12 c12)
    · exact List.mem_append_left _ (d13 c13)
  · intro _
    simp [State.complete, resize_state σ width height hi, State.owned, NULL, c1, c2, c3, c4, c5,
      c6, c9, c10, c11, c12, c13, hn0]
  · intro _
    rw [htr, pipelinesIn_append, List.map_append]
    simp only [resize_state σ width height hi]
    exact List.mem_append_left _ (h.pipeline hi)

section Steps
variable [LinearOrderedField K]

theorem sound_update (L : Libm K) {σ : Sys K} (h : Sound σ) (dt : K) : Sound (update L σ dt) := by
  obtain ⟨m, hm⟩ := update_trace L σ dt
  refine h.step (k := 0) (update_owned L σ dt) (update_initialized L σ dt)
    (update_next L σ dt) hm ?_ ?_ ?_ <;>
    simp [acquiredIn, createdIn, releasedIn, Call.returns, Call.releases]

theorem sound_render {σ : Sys K} (h : Sound σ) (status : WGPUSurfaceGetCurrentTextureStatus) :
    Sound (render σ status) := by
  have hpos := h.next_pos
  by_cases hs : status.isSuccess = true
  · refine h.step (k := 5) (by rw [render_state]) (by rw [render_state])
      (render_next σ status hs) (render_trace σ status hs) ?_ ?_ ?_
    · have : σ.next ≠ 0 := by omega
      simp [acquiredIn, createdIn, Call.returns, List.range', this, NULL]
    · simp [releasedIn, Call.releases]
    · intro x
      have : σ.next ≠ 0 := by omega
      simp [acquiredIn, createdIn, releasedIn, Call.returns, Call.releases, this, NULL]
      omega
  · have hs' : status.isSuccess = false := by simpa using hs
    rw [render_skip σ status hs']
    refine h.step (k := 0) rfl rfl rfl (Sys.emit_trace σ _) ?_ ?_ ?_ <;>
      simp [acquiredIn, createdIn, releasedIn, Call.returns, Call.releases]


theorem sound_run (L : Libm K) (ops : List (Op K)) {σ : Sys K} (h : Sound σ) :
    Sound (run L σ ops) := by
  induction ops generalizing σ with
  | nil => exact h
  | cons o ops ih =>
    refine @ih (Op.run L σ o) ?_
    cases o with
    | resize width height => exact sound_resize h width height
    | update dt => exact sound_update L h dt
    | render status => exact sound_render h status

end Steps
/-- A state whose books are given as literals is sound when the literals balance. -/
theorem Sound.of_summary {σ : Sys K} (own cr : List (Kind × Nat)) (rl pl : List Nat)
    (n p : Nat) (b : Bool)
    (e1 : σ.state.owned = own) (e2 : σ.next = n) (e3 : createdIn σ.trace = cr)
    (e4 : releasedIn σ.trace = rl) (e5 : (pipelinesIn σ.trace).map Prod.fst = pl)
    (e6 : σ.state.pipeline = p) (e7 : σ.state.initialized = b)
    (h : Books ((own.map Prod.snd).filter fun h => h ≠ NULL) n (cr.map Prod.snd) rl ∧ 0 < n ∧
      (∀ e ∈ own, e.2 ≠ NULL → e ∈ cr) ∧ (b = true → (∀ e ∈ own, e.2 ≠ NULL) ∧ p ∈ pl)) :
    Sound σ := by
  subst e1 e2 e3 e4 e5 e6 e7
  exact ⟨h.1, h.2.1, h.2.2.1, fun hi => (h.2.2.2 hi).1, fun hi => (h.2.2.2 hi).2⟩

section BootSound
variable [LinearOrderedField K]

theorem sound_boot (P : Platform) : Sound (init_wgpu P (Sys.boot : Sys K)) := by
  by_cases hi : P.instance_ok = true
  swap
  · rw [init_wgpu_no_instance P (by simpa using hi)]
    exact Sound.of_summary
      [(.RenderPipeline, 0), (.BindGroup, 0), (.BindGroupLayout, 0), (.Buffer, 0),
       (.Buffer, 0), (.Buffer, 0), (.TextureView, 0), (.Texture, 0), (.Queue, 0), (.Device, 0),
       (.Adapter, 0), (.Surface, 0), (.Instance, 0)]
      []
      [] [] 1 0 false rfl rfl rfl rfl rfl rfl rfl (by decide)
  by_cases hw : P.wm_info_ok = true
  swap
  · rw [init_wgpu_no_wm_info P hi (by simpa using hw)]
    exact Sound.of_summary
      [(.RenderPipeline, 0), (.BindGroup, 0), (.BindGroupLayout, 0), (.Buffer, 0),
       (.Buffer, 0), (.Buffer, 0), (.TextureView, 0), (.Texture, 0), (.Queue, 0), (.Device, 0),
       (.Adapter, 0), (.Surface, 0), (.Instance, 1)]
      [(.Instance, 1)]
      [] [] 2 0 false rfl rfl rfl rfl rfl rfl rfl (by decide)
  by_cases hs : P.surface_ok = true
  swap
  · rw [init_wgpu_no_surface P hi hw (by simpa using hs)]
    exact Sound.of_summary
      [(.RenderPipeline, 0), (.BindGroup, 0), (.BindGroupLayout, 0), (.Buffer, 0),
       (.Buffer, 0), (.Buffer, 0), (.TextureView, 0), (.Texture, 0), (.Queue, 0), (.Device, 0),
       (.Adapter, 0), (.Surface, 0), (.Instance, 1)]
      [(.Instance, 1)]
      [] [] 2 0 false rfl rfl rfl rfl rfl rfl rfl (by decide)
  by_cases ha : P.adapter_status = .Success
  swap
  · rw [init_wgpu_no_adapter P hi hw hs ha]
    exact Sound.of_summary
      [(.RenderPipeline, 0), (.BindGroup, 0), (.BindGroupLayout, 0), (.Buffer, 0),
       (.Buffer, 0), (.Buffer, 0), (.TextureView, 0), (.Texture, 0), (.Queue, 0), (.Device, 0),
       (.Adapter, 0), (.Surface, 2), (.Instance, 1)]
      [(.Instance, 1), (.Surface, 2)]
      [] [] 3 0 false rfl rfl rfl rfl rfl rfl rfl (by decide)
  by_cases hd : P.device_status = .Success
  swap
  · rw [init_wgpu_no_device P hi hw hs ha hd]
    exact Sound.of_summary
      [(.RenderPipeline, 0), (.BindGroup, 0), (.BindGroupLayout, 0), (.Buffer, 0),
       (.Buffer, 0), (.Buffer, 0), (.TextureView, 0), (.Texture, 0), (.Queue, 0), (.Device, 0),
       (.Adapter, 3), (.Surface, 2), (.Instance, 1)]
      [(.Instance, 1), (.Surface, 2), (.Adapter, 3)]
      [] [] 4 0 false rfl rfl rfl rfl rfl rfl rfl (by decide)
  by_cases hc : P.caps_status = .Success
  swap
  · rw [init_wgpu_no_caps P hi hw hs ha hd hc]
    exact Sound.of_summary
      [(.RenderPipeline, 0), (.BindGroup, 0), (.BindGroupLayout, 0), (.Buffer, 0),
       (.Buffer, 0), (.Buffer, 0), (.TextureView, 0), (.Texture, 0), (.Queue, 5), (.Device, 4),
       (.Adapter, 3), (.Surface, 2), (.Instance, 1)]
      [(.Instance, 1), (.Surface, 2), (.Adapter, 3), (.Device, 4), (.Queue, 5)]
      [] [] 6 0 false rfl rfl rfl rfl rfl rfl rfl (by decide)
  rw [init_wgpu_device P hi hw hs ha hd]
  refine Sound.of_summary
    [(.RenderPipeline, 15), (.BindGroup, 12), (.BindGroupLayout, 11), (.Buffer, 10),
      (.Buffer, 9), (.Buffer, 8), (.TextureView, 7), (.Texture, 6), (.Queue, 5), (.Device, 4),
      (.Adapter, 3), (.Surface, 2), (.Instance, 1)]
    [(.Instance, 1), (.Surface, 2), (.Adapter, 3), (.Device, 4), (.Queue, 5),
      (.Texture, 6), (.TextureView, 7), (.Buffer, 8), (.Buffer, 9), (.Buffer, 10),
      (.BindGroupLayout, 11), (.BindGroup, 12), (.ShaderModule, 13), (.PipelineLayout, 14),
      (.RenderPipeline, 15)]
    [13, 14] [15] 16 15 true ?_ ?_ ?_ ?_ ?_ ?_ ?_ (by decide)
  · simp [on_device_state P _ hc, State.owned]
  · simp [on_device_next P _ hc]
  · simp [on_device_trace P _ hc, createdIn, Call.returns, Sys.boot, State.zero]
  · simp [on_device_trace P _ hc, releasedIn, Call.releases, Sys.boot, State.zero]
  · simp [on_device_trace P _ hc, pipelinesIn, Sys.boot, State.zero]
  · simp [on_device_state P _ hc]
  · simp [on_device_state P _ hc]

end BootSound
/-! ## Teardown -/

theorem filter_eq_flatMap {α : Type} (p : α → Bool) (l : List α) :
    l.filter p = l.flatMap fun x => if p x then [x] else [] := by
  induction l with
  | nil => rfl
  | cons a l ih =>
    by_cases h : p a <;> simp [List.filter_cons, h, ih]

/-- The release calls of the specified order are one per non-null handle field,
of the kind of the field. -/
theorem release_sequence_releases (s : State K) :
    (release_sequence s).filterMap Call.releases = s.owned.filter fun e => e.2 ≠ NULL := by
  rw [filter_eq_flatMap]
  simp only [release_sequence, release_order, filter_flatMap, State.owned, List.flatMap_cons,
    List.flatMap_nil, List.filterMap_append, List.append_nil, apply_ite (List.filterMap _),
    List.filterMap_cons, List.filterMap_nil, Call.releases]

theorem release_sequence_released (s : State K) : releasedIn (release_sequence s) = s.held := by
  rw [releasedIn, release_sequence_releases, State.held, List.filter_map]
  rfl

theorem release_sequence_acquired (s : State K) : acquiredIn (release_sequence s) = [] := by
  simp only [acquiredIn, createdIn, release_sequence, release_order, filter_flatMap,
    List.flatMap_cons, List.flatMap_nil, List.filterMap_append, List.append_nil,
    apply_ite (List.filterMap _), List.filterMap_cons, List.filterMap_nil, Call.returns,
    ite_self, List.append_nil, List.filter_nil, List.map_nil]

/-- C2. The calls `cleanup` makes are exactly the specified order (pipeline, bind
group, bind group layout, uniform buffer, index buffer, vertex buffer, depth
view, depth texture with its destroy right before its release, queue, device,
adapter, surface, instance) restricted to the fields that are not null, in that
order; `cleanup` makes no other call and changes nothing else. -/
theorem cleanup_release_order (σ : Sys K) :
    emitted σ (cleanup σ) = release_sequence σ.state ∧
    (cleanup σ).trace = σ.trace ++ release_sequence σ.state ∧
    (cleanup σ).state = σ.state ∧ (cleanup σ).next = σ.next := by
  rw [cleanup_eq]
  exact ⟨emitted_eq rfl, rfl, rfl, rfl⟩

section Teardown
variable [LinearOrderedField K]

/-- C1. After any bootstrap (whichever stage fails, or none) followed by any
sequence of `resize`, `update` and `render` calls, `cleanup` releases exactly
the objects created in the run and not yet released, once each and as objects of
the kind they were created as; it makes one release per non-null handle field
and none for a null one; and over the whole run, teardown included, no handle is
released twice, only created objects are released, and every created object is
released. -/
theorem cleanup_releases_every_live_object_once (L : Libm K) (P : Platform)
    (ops : List (Op K)) :
    let σ := run L (init_wgpu P Sys.boot) ops
    let cs := emitted σ (cleanup σ)
    (cleanup σ).trace = σ.trace ++ cs ∧
    (∀ h, h ∈ releasedIn cs ↔ h ∈ acquiredIn σ.trace ∧ h ∉ releasedIn σ.trace) ∧
    (releasedIn cs).Nodup ∧
    cs.filterMap Call.releases = σ.state.owned.filter (fun e => e.2 ≠ NULL) ∧
    (∀ e ∈ cs.filterMap Call.releases, e ∈ createdIn σ.trace) ∧
    NULL ∉ releasedIn cs ∧
    (releasedIn (cleanup σ).trace).Nodup ∧
    (∀ h, h ∈ releasedIn (cleanup σ).trace ↔ h ∈ acquiredIn (cleanup σ).trace) := by
  intro σ cs
  have hs : Sound σ := sound_run L ops (sound_boot P)
  have hcs : cs = release_sequence σ.state := emitted_eq (by rw [cleanup_eq]; rfl)
  have htr : (cleanup σ).trace = σ.trace ++ cs := by rw [hcs, cleanup_eq]; rfl
  have hrel : releasedIn cs = σ.state.held := by rw [hcs, release_sequence_released]
  have hacq : acquiredIn cs = [] := by rw [hcs, release_sequence_acquired]
  obtain ⟨h1, h2, h3, h4, h5, h6, h7⟩ := hs.ledger
  refine ⟨htr, ?_, ?_, ?_, ?_, ?_, ?_, ?_⟩
  · intro h
    rw [hrel]
    exact ⟨fun hh => h2 h hh, fun hh => h3 h hh.1 hh.2⟩
  · rw [hrel]; exact h1
  · rw [hcs, release_sequence_releases]
  · rw [hcs, release_sequence_releases]
    intro e he
    rw [List.mem_filter] at he
    exact hs.created e he.1 (by simpa using he.2)
  · rw [hrel]
    simp [State.held]
  · rw [htr, releasedIn_append, hrel, List.nodup_append]
    exact ⟨h6, h1, fun x hx hx' => (h2 x hx').2 hx⟩
  · intro h
    rw [htr, releasedIn_append, acquiredIn_append, hrel, hacq, List.append_nil, List.mem_append]
    constructor
    · rintro (hh | hh)
      · exact h7 h hh
      · exact (h2 h hh).1
    · intro hh
      by_cases hr : h ∈ releasedIn σ.trace
      · exact Or.inl hr
      · exact Or.inr (h3 h hh hr)

end Teardown
theorem configuredIn_append (a b : List (Call K)) :
    configuredIn (a ++ b) = configuredIn a ++ configuredIn b := by
  simp [configuredIn]

theorem texturesIn_append (a b : List (Call K)) :
    texturesIn (a ++ b) = texturesIn a ++ texturesIn b := by
  simp [texturesIn]

theorem resize_initialized (σ : Sys K) (width height : Nat) :
    (resize σ width height).state.initialized = σ.state.initialized := by
  by_cases h : σ.state.initialized = true
  · rw [resize_state σ width height h]
  · rw [resize_not_initialized σ width height (by simpa using h)]

theorem resize_pipeline (σ : Sys K) (width height : Nat) :
    (resize σ width height).state.pipeline = σ.state.pipeline := by
  by_cases h : σ.state.initialized = true
  · rw [resize_state σ width height h]
  · rw [resize_not_initialized σ width height (by simpa using h)]

theorem resize_pipelinesIn (σ : Sys K) (width height : Nat) :
    pipelinesIn (resize σ width height).trace = pipelinesIn σ.trace := by
  by_cases h : σ.state.initialized = true
  · rw [resize_trace σ width height h]
    by_cases h1 : σ.state.depth_texture = NULL <;> by_cases h2 : σ.state.depth_view = NULL <;>
      simp [pipelinesIn, h1, h2]
  · rw [resize_not_initialized σ width height (by simpa using h)]

section OpFrame
variable [LinearOrderedField K]

theorem render_pipelinesIn (σ : Sys K) (status : WGPUSurfaceGetCurrentTextureStatus) :
    pipelinesIn (render σ status).trace = pipelinesIn σ.trace := by
  by_cases hs : status.isSuccess = true
  · rw [render_trace σ status hs]
    simp [pipelinesIn]
  · rw [render_skip σ status (by simpa using hs)]
    simp [pipelinesIn]

theorem update_pipelinesIn (L : Libm K) (σ : Sys K) (dt : K) :
    pipelinesIn (update L σ dt).trace = pipelinesIn σ.trace := by
  simp [update, pipelinesIn]

theorem run_initialized (L : Libm K) (ops : List (Op K)) (σ : Sys K) :
    (run L σ ops).state.initialized = σ.state.initialized := by
  induction ops generalizing σ with
  | nil => rfl
  | cons o ops ih =>
    show (run L (Op.run L σ o) ops).state.initialized = _
    rw [ih]
    cases o with
    | resize width height => exact resize_initialized σ width height
    | update dt => exact update_initialized L σ dt
    | render status => exact congrArg State.initialized (render_state σ status)

theorem run_pipeline (L : Libm K) (ops : List (Op K)) (σ : Sys K) :
    (run L σ ops).state.pipeline = σ.state.pipeline := by
  induction ops generalizing σ with
  | nil => rfl
  | cons o ops ih =>
    show (run L (Op.run L σ o) ops).state.pipeline = _
    rw [ih]
    cases o with
    | resize width height => exact resize_pipeline σ width height
    | update dt => simp [Op.run, update]
    | render status => exact congrArg State.pipeline (render_state σ status)

theorem run_pipelinesIn (L : Libm K) (ops : List (Op K)) (σ : Sys K) :
    pipelinesIn (run L σ ops).trace = pipelinesIn σ.trace := by
  induction ops generalizing σ with
  | nil => rfl
  | cons o ops ih =>
    show pipelinesIn (run L (Op.run L σ o) ops).trace = _
    rw [ih]
    cases o with
    | resize width height => exact resize_pipelinesIn σ width height
    | update dt => exact update_pipelinesIn L σ dt
    | render status => exact render_pipelinesIn σ status

/-- The bootstrap marks the struct initialized exactly when every stage succeeds. -/
theorem init_wgpu_initialized (P : Platform) :
    (init_wgpu P (Sys.boot : Sys K)).state.initialized = P.all_ok := by
  by_cases hi : P.instance_ok = true
  swap
  · rw [init_wgpu_no_instance P (by simpa using hi)]
    simp [Platform.all_ok, hi, Sys.boot, State.zero]
  by_cases hw : P.wm_info_ok = true
  swap
  · rw [init_wgpu_no_wm_info P hi (by simpa using hw)]
    simp [Platform.all_ok, hw, Sys.boot, State.zero]
  by_cases hs : P.surface_ok = true
  swap
  · rw [init_wgpu_no_surface P hi hw (by simpa using hs)]
    simp [Platform.all_ok, hs, Sys.boot, State.zero]
  by_cases ha : P.adapter_status = .Success
  swap
  · rw [init_wgpu_no_adapter P hi hw hs ha]
    simp [Platform.all_ok, ha, Sys.boot, State.zero]
  by_cases hd : P.device_status = .Success
  swap
  · rw [init_wgpu_no_device P hi hw hs ha hd]
    simp [Platform.all_ok, hd, Sys.boot, State.zero]
  by_cases hc : P.caps_status = .Success
  swap
  · rw [init_wgpu_no_caps P hi hw hs ha hd hc]
    simp [Platform.all_ok, hc, Sys.boot, State.zero]
  rw [init_wgpu_device P hi hw hs ha hd, on_device_state P _ hc]
  simp [Platform.all_ok, hi, hw, hs, ha, hd, hc]

/-- Unfolding `all_ok`. -/
theorem Platform.all_ok_iff (P : Platform) :
    P.all_ok = true ↔ P.instance_ok = true ∧ P.wm_info_ok = true ∧ P.surface_ok = true ∧
      P.adapter_status = .Success ∧ P.device_status = .Success ∧ P.caps_status = .Success := by
  simp [Platform.all_ok, and_assoc]

/-- After a successful bootstrap one render pipeline has been created, the one
the struct holds, as a triangle list without culling. -/
theorem init_wgpu_pipelines (P : Platform) (h : P.all_ok = true) :
    ∃ desc, pipelinesIn (init_wgpu P (Sys.boot : Sys K)).trace =
        [((init_wgpu P (Sys.boot : Sys K)).state.pipeline, desc)] ∧
      desc.topology = .TriangleList ∧ desc.cullMode = .None ∧ desc.frontFace = .CW ∧
      desc.targetFormat = P.caps_format := by
  obtain ⟨hi, hw, hs, ha, hd, hc⟩ := (Platform.all_ok_iff P).1 h
  rw [init_wgpu_device P hi hw hs ha hd, on_device_state P _ hc, on_device_trace P _ hc]
  exact ⟨_, by simp [pipelinesIn, Sys.boot, State.zero]; rfl, rfl, rfl, rfl, rfl⟩

end OpFrame
/-! ## Frames -/

section Frames
variable [LinearOrderedField K]

/-- C3. When the frame acquisition reports anything but `SuccessOptimal` or
`SuccessSuboptimal`, `render` makes the acquisition call and nothing else: no
view, encoder or render pass is created, nothing is drawn, submitted or
presented, and the struct and the GPU objects are as before, so that a `render`
or `update` that follows does what it would have done without the skipped
frame. -/
theorem render_skips_failed_acquire (L : Libm K) (σ : Sys K)
    (status : WGPUSurfaceGetCurrentTextureStatus)
    (h1 : status ≠ .SuccessOptimal) (h2 : status ≠ .SuccessSuboptimal) :
    (render σ status).state = σ.state ∧
    (render σ status).next = σ.next ∧
    emitted σ (render σ status) =
      [.wgpuSurfaceGetCurrentTexture σ.state.surface status NULL] ∧
    (emitted σ (render σ status)).filter Call.isFrameWork = [] ∧
    acquiredIn (emitted σ (render σ status)) = [] ∧
    releasedIn (emitted σ (render σ status)) = [] ∧
    (∀ status', (render (render σ status) status').state = (render σ status').state ∧
      (render (render σ status) status').next = (render σ status').next ∧
      emitted (render σ status) (render (render σ status) status') =
        emitted σ (render σ status')) ∧
    (∀ dt, (update L (render σ status) dt).state = (update L σ dt).state ∧
      emitted (render σ status) (update L (render σ status) dt) =
        emitted σ (update L σ dt)) := by
  have hs : status.isSuccess = false := by
    cases status <;> simp_all [WGPUSurfaceGetCurrentTextureStatus.isSuccess]
  have he : emitted σ (render σ status) =
      [.wgpuSurfaceGetCurrentTexture σ.state.surface status NULL] :=
    emitted_eq (by rw [render_skip σ status hs]; rfl)
  refine ⟨by rw [render_skip σ status hs]; rfl, by rw [render_skip σ status hs]; rfl, he,
    ?_, ?_, ?_, ?_, ?_⟩
  · rw [he]; rfl
  · rw [he]; rfl
  · rw [he]; rfl
  · intro status'
    rw [render_skip σ status hs]
    refine ⟨by rw [render_state, render_state]; rfl, ?_, ?_⟩
    · cases status' <;>
        simp [render, Sys.createIf, WGPUSurfaceGetCurrentTextureStatus.isSuccess]
    · cases status' <;>
        simp [emitted, render, Sys.createIf, WGPUSurfaceGetCurrentTextureStatus.isSuccess,
          Sys.create, Sys.emit]
  · intro dt
    rw [render_skip σ status hs]
    refine ⟨by simp [update], ?_⟩
    simp [emitted, update]

/-- C3, at a concrete input: a timed-out acquisition after a successful bootstrap. -/
theorem render_skips_failed_acquire_witness :
    WGPUSurfaceGetCurrentTextureStatus.Timeout ≠ .SuccessOptimal ∧
    WGPUSurfaceGetCurrentTextureStatus.Timeout ≠ .SuccessSuboptimal ∧
    (render (init_wgpu Platform.good (Sys.boot : Sys ℚ)) .Timeout).state =
      (init_wgpu Platform.good (Sys.boot : Sys ℚ)).state ∧
    (render (init_wgpu Platform.good (Sys.boot : Sys ℚ)) .Timeout).next =
      (init_wgpu Platform.good (Sys.boot : Sys ℚ)).next ∧
    emitted (init_wgpu Platform.good (Sys.boot : Sys ℚ))
      (render (init_wgpu Platform.good (Sys.boot : Sys ℚ)) .Timeout) =
      [.wgpuSurfaceGetCurrentTexture (init_wgpu Platform.good (Sys.boot : Sys ℚ)).state.surface
        .Timeout NULL] :=
  have h := render_skips_failed_acquire Libm.rational
    (init_wgpu Platform.good (Sys.boot : Sys ℚ)) .Timeout (by decide) (by decide)
  ⟨by decide, by decide, h.1, h.2.1, h.2.2.1⟩

/-- The steps of a frame that is not skipped, on any state. -/
theorem render_frame_steps (σ : Sys K) (status : WGPUSurfaceGetCurrentTextureStatus)
    (hs : status.isSuccess = true) :
    (emitted σ (render σ status)).filter Call.isFrameStep =
      [.wgpuCommandEncoderBeginRenderPass (σ.next + 2)
         { colorView := σ.next + 1, colorLoadOp := .Clear, colorStoreOp := .Store,
           clearValue := (19 / 100, 24 / 100, 42 / 100, 1),
           depthView := σ.state.depth_view, depthLoadOp := .Clear, depthStoreOp := .Store,
           depthClearValue := 1 } (σ.next + 3),
       .wgpuRenderPassEncoderSetPipeline (σ.next + 3) σ.state.pipeline,
       .wgpuRenderPassEncoderDrawIndexed (σ.next + 3) 3 1 0 0 0,
       .wgpuRenderPassEncoderEnd (σ.next + 3),
       .wgpuQueueSubmit σ.state.queue [σ.next + 4],
       .wgpuSurfacePresent σ.state.surface] := by
  rw [emitted_eq (render_trace σ status hs)]
  rfl

/-- C4. On a state reached from a bootstrap that left the struct initialized
(at 800 by 600, followed by any calls of `resize`, `update` and `render`), a
`render` whose acquisition succeeds makes exactly one draw call, an indexed draw
of 3 indices and 1 instance; the draw lies inside the one render pass of the
frame, after the binding of the struct's pipeline in that pass; the pass is
followed by one submit of one command buffer, the one finished from the frame's
encoder, and then by one present. The pipeline bound is the only one ever
created, and it was created as a triangle list with cull mode `None`. -/
theorem render_draws_one_indexed_triangle (L : Libm K) (P : Platform) (ops : List (Op K))
    (status : WGPUSurfaceGetCurrentTextureStatus)
    (hinit : (run L (init_wgpu P Sys.boot) ops).state.initialized = true)
    (hs : status = .SuccessOptimal ∨ status = .SuccessSuboptimal) :
    (∃ encoder desc pass commands,
      (emitted (run L (init_wgpu P Sys.boot) ops)
          (render (run L (init_wgpu P Sys.boot) ops) status)).filter Call.isFrameStep =
        [.wgpuCommandEncoderBeginRenderPass encoder desc pass,
         .wgpuRenderPassEncoderSetPipeline pass (run L (init_wgpu P Sys.boot) ops).state.pipeline,
         .wgpuRenderPassEncoderDrawIndexed pass 3 1 0 0 0,
         .wgpuRenderPassEncoderEnd pass,
         .wgpuQueueSubmit (run L (init_wgpu P Sys.boot) ops).state.queue [commands],
         .wgpuSurfacePresent (run L (init_wgpu P Sys.boot) ops).state.surface] ∧
      Call.wgpuCommandEncoderFinish encoder commands ∈
        emitted (run L (init_wgpu P Sys.boot) ops)
          (render (run L (init_wgpu P Sys.boot) ops) status) ∧
      (emitted (run L (init_wgpu P Sys.boot) ops)
          (render (run L (init_wgpu P Sys.boot) ops) status)).filter Call.isDraw =
        [.wgpuRenderPassEncoderDrawIndexed pass 3 1 0 0 0]) ∧
    (∃ desc, pipelinesIn (run L (init_wgpu P Sys.boot) ops).trace =
        [((run L (init_wgpu P Sys.boot) ops).state.pipeline, desc)] ∧
      desc.topology = .TriangleList ∧ desc.cullMode = .None) ∧
    (run L (init_wgpu P Sys.boot) ops).state.pipeline ≠ NULL := by
  have hsucc : status.isSuccess = true := by
    rcases hs with rfl | rfl <;> rfl
  have hsound : Sound (run L (init_wgpu P (Sys.boot : Sys K)) ops) :=
    sound_run L ops (sound_boot P)
  refine ⟨⟨_, _, _, _, render_frame_steps _ status hsucc, ?_, ?_⟩, ?_, ?_⟩
  · rw [emitted_eq (render_trace _ status hsucc)]
    simp
  · rw [emitted_eq (render_trace _ status hsucc)]
    rfl
  · rw [run_initialized, init_wgpu_initialized] at hinit
    obtain ⟨desc, h1, h2, h3, _⟩ := init_wgpu_pipelines (K := K) P hinit
    exact ⟨desc, by rw [run_pipelinesIn, run_pipeline, h1], h2, h3⟩
  · have := hsound.complete hinit
    exact this (.RenderPipeline, _) (by simp [State.owned])

/-- C4, at a concrete input: the first frame after a successful bootstrap. -/
theorem render_draws_one_indexed_triangle_witness :
    (run Libm.rational (init_wgpu Platform.good Sys.boot) []).state.initialized = true ∧
    (WGPUSurfaceGetCurrentTextureStatus.SuccessOptimal = .SuccessOptimal ∨
      WGPUSurfaceGetCurrentTextureStatus.SuccessOptimal = .SuccessSuboptimal) ∧
    (run Libm.rational (init_wgpu Platform.good Sys.boot) []).state.pipeline ≠ NULL ∧
    (emitted (init_wgpu Platform.good (Sys.boot : Sys ℚ))
        (render (init_wgpu Platform.good (Sys.boot : Sys ℚ)) .SuccessOptimal)).filter
        Call.isDraw = [.wgpuRenderPassEncoderDrawIndexed 19 3 1 0 0 0] :=
  have h := render_draws_one_indexed_triangle Libm.rational Platform.good [] .SuccessOptimal
    (by decide) (Or.inl rfl)
  ⟨by decide, Or.inl rfl, h.2.2, by
    rw [emitted_eq (render_trace _ .SuccessOptimal rfl)]
    rfl⟩

end Frames
/-! ## The depth target -/

theorem depthMatches_resize (σ : Sys K) (width height : Nat) (h : σ.state.initialized = true) :
    DepthMatches (resize σ width height) ∧
    (resize σ width height).state.width = width ∧
    (resize σ width height).state.height = height := by
  have hd : textureDescriptorOf (resize σ width height).trace
      (resize σ width height).state.depth_texture =
      some { width := width, height := height, depthOrArrayLayers := 1,
             mipLevelCount := 1, sampleCount := 1, dimension := .D2, format := DEPTH_FORMAT,
             usage := WGPUTextureUsage_RenderAttachment } := by
    rw [resize_trace σ width height h, resize_state σ width height h]
    by_cases h1 : σ.state.depth_texture = NULL <;> by_cases h2 : σ.state.depth_view = NULL <;>
      simp [textureDescriptorOf, texturesIn, h1, h2]
  refine ⟨⟨_, hd, ?_⟩, ?_, ?_⟩
  · rw [resize_state σ width height h]
    exact ⟨rfl, rfl, rfl, rfl⟩
  · rw [resize_state σ width height h]
  · rw [resize_state σ width height h]

section DepthBoot
variable [LinearOrderedField K]

theorem depthMatches_on_device (P : Platform) (σ : Sys K) (hc : P.caps_status = .Success) :
    DepthMatches (on_device P σ) := by
  have hd : textureDescriptorOf (on_device P σ).trace (on_device P σ).state.depth_texture =
      some { width := σ.state.width, height := σ.state.height, depthOrArrayLayers := 1,
             mipLevelCount := 1, sampleCount := 1, dimension := .D2, format := DEPTH_FORMAT,
             usage := WGPUTextureUsage_RenderAttachment } := by
    rw [on_device_trace P σ hc, on_device_state P σ hc]
    by_cases h1 : σ.state.depth_texture = NULL <;> by_cases h2 : σ.state.depth_view = NULL <;>
      simp [textureDescriptorOf, texturesIn, h1, h2]
  refine ⟨_, hd, ?_⟩
  · rw [on_device_state P σ hc]
    exact ⟨rfl, rfl, rfl, rfl⟩

/-- C5. After `on_device` has run with a successful capabilities query (on any
state, the one of the bootstrap included), and after `resize(state, w, h)` on
any initialized state, for every `w` and `h`: the depth texture held in the
struct was created with width and height equal to `surface_config.width` and
`surface_config.height`, and equal to `state.width` and `state.height`; after
`resize` these are `w` and `h`. -/
theorem depth_texture_matches_surface_config (P : Platform) (σ τ : Sys K)
    (width height : Nat) :
    (P.caps_status = .Success → DepthMatches (on_device P σ)) ∧
    (P.all_ok = true → DepthMatches (init_wgpu P (Sys.boot : Sys K))) ∧
    (τ.state.initialized = true →
      DepthMatches (resize τ width height) ∧
      (resize τ width height).state.width = width ∧
      (resize τ width height).state.height = height) := by
  refine ⟨depthMatches_on_device P σ, ?_, depthMatches_resize τ width height⟩
  intro h
  obtain ⟨hi, hw, hs, ha, hd, hc⟩ := (Platform.all_ok_iff P).1 h
  rw [init_wgpu_device P hi hw hs ha hd]
  exact depthMatches_on_device P _ hc

/-- C5, at a concrete input: the bootstrap at 800 by 600, then a resize to 1024 by 768. -/
theorem depth_texture_matches_surface_config_witness :
    Platform.good.caps_status = .Success ∧ Platform.good.all_ok = true ∧
    (init_wgpu Platform.good (Sys.boot : Sys ℚ)).state.initialized = true ∧
    DepthMatches (init_wgpu Platform.good (Sys.boot : Sys ℚ)) ∧
    DepthMatches (resize (init_wgpu Platform.good (Sys.boot : Sys ℚ)) 1024 768) ∧
    (resize (init_wgpu Platform.good (Sys.boot : Sys ℚ)) 1024 768).state.width = 1024 ∧
    (resize (init_wgpu Platform.good (Sys.boot : Sys ℚ)) 1024 768).state.height = 768 :=
  have h := depth_texture_matches_surface_config Platform.good (Sys.boot : Sys ℚ)
    (init_wgpu Platform.good (Sys.boot : Sys ℚ)) 1024 768
  ⟨rfl, by decide, by decide, h.2.1 (by decide), h.2.2 (by decide)⟩

end DepthBoot
/-! ## The loop of `main` as a run of guarded calls -/

section MainLoop
variable [LinearOrderedField K]

theorem run_append (L : Libm K) (σ : Sys K) (a b : List (Op K)) :
    run L σ (a ++ b) = run L (run L σ a) b := by
  simp [run, List.foldl_append]

/-- Polling events makes only `resize` calls, each with a non-zero width and height. -/
theorem handle_events_run (L : Libm K) (events : List SDL_Event) (m : Loop K) :
    ∃ ops, (events.foldl handle_event m).sys = run L m.sys ops ∧
      ∀ o ∈ ops, ∃ w h, o = Op.resize w h ∧ 0 < w ∧ 0 < h := by
  induction events generalizing m with
  | nil => exact ⟨[], rfl, by simp⟩
  | cons e events ih =>
    obtain ⟨ops, h1, h2⟩ := ih (handle_event m e)
    rw [List.foldl_cons, h1]
    cases e with
    | SDL_QUIT => exact ⟨ops, rfl, h2⟩
    | SDL_KEYDOWN scancode =>
      refine ⟨ops, ?_, h2⟩
      simp only [handle_event]
      split <;> rfl
    | SDL_WINDOWEVENT event data1 data2 =>
      by_cases hg : event = SDL_WINDOWEVENT_RESIZED ∧ to_uint32 data1 > 0 ∧ to_uint32 data2 > 0
      · refine ⟨Op.resize (to_uint32 data1) (to_uint32 data2) :: ops, ?_, ?_⟩
        · simp [handle_event, hg.1, hg.2.1, hg.2.2, run, Op.run]
        · intro o ho
          rcases List.mem_cons.1 ho with rfl | ho
          · exact ⟨_, _, rfl, hg.2.1, hg.2.2⟩
          · exact h2 o ho
      · refine ⟨ops, ?_, h2⟩
        have : handle_event m (.SDL_WINDOWEVENT event data1 data2) = m := by
          simp only [handle_event]
          split
          · split
            · next h1 h2 => exact absurd ⟨h1, h2.1, h2.2⟩ hg
            · rfl
          · rfl
        rw [this]
    | other => exact ⟨ops, rfl, h2⟩

theorem iteration_run (L : Libm K) (frequency : Nat) (m : Loop K) (t : Tick) :
    ∃ ops, (iteration L frequency m t).sys = run L m.sys ops ∧
      ∀ o ∈ ops, o.guarded m.sys.state.initialized := by
  obtain ⟨ops, h1, h2⟩ := handle_events_run L t.events m
  have hinit : (t.events.foldl handle_event m).sys.state.initialized =
      m.sys.state.initialized := by rw [h1, run_initialized]
  have hg : ∀ o ∈ ops, o.guarded m.sys.state.initialized := by
    intro o ho
    obtain ⟨w, h, rfl, hw, hh⟩ := h2 o ho
    exact ⟨hw, hh⟩
  by_cases hi : m.sys.state.initialized = true
  · refine ⟨ops ++ [.update ((((t.now + 2 ^ 64 - (t.events.foldl handle_event m).last_time) %
      2 ^ 64 : Nat) : K) / (frequency : K)), .render t.acquire], ?_, ?_⟩
    · rw [run_append, ← h1]
      simp [iteration, hinit, hi, run, Op.run]
    · intro o ho
      rcases List.mem_append.1 ho with ho | ho
      · exact hg o ho
      · simp only [List.mem_cons, List.mem_singleton, List.not_mem_nil, or_false] at ho
        rcases ho with rfl | rfl <;> exact hi
  · refine ⟨ops, ?_, hg⟩
    rw [← h1]
    simp [iteration, hinit, hi]

theorem main_loop_run (L : Libm K) (frequency : Nat) (ticks : List Tick) (m : Loop K) :
    ∃ ops, (main_loop L frequency m ticks).sys = run L m.sys ops ∧
      ∀ o ∈ ops, o.guarded m.sys.state.initialized := by
  induction ticks generalizing m with
  | nil => exact ⟨[], rfl, by simp⟩
  | cons t ticks ih =>
    by_cases hr : m.running = true
    · obtain ⟨ops1, h1, g1⟩ := iteration_run L frequency m t
      obtain ⟨ops2, h2, g2⟩ := ih (iteration L frequency m t)
      refine ⟨ops1 ++ ops2, ?_, ?_⟩
      · simp only [main_loop, hr, if_true]
        rw [h2, h1, run_append]
      · intro o ho
        rcases List.mem_append.1 ho with ho | ho
        · exact g1 o ho
        · have := g2 o ho
          rwa [h1, run_initialized] at this
    · exact ⟨[], by simp [main_loop, hr, run], by simp⟩

/-- What `main` has done is a run of guarded calls on the bootstrapped state,
followed by `cleanup` when it has left the loop; or nothing when SDL failed. -/
theorem main_run (L : Libm K) (P : Platform) (counter frequency : Nat) (ticks : List Tick) :
    ∃ ops, (∀ o ∈ ops, o.guarded (init_wgpu P (Sys.boot : Sys K)).state.initialized) ∧
      ((main L P counter frequency ticks).sys = Sys.boot ∨
       (main L P counter frequency ticks).sys = run L (init_wgpu P Sys.boot) ops ∨
       (main L P counter frequency ticks).sys = cleanup (run L (init_wgpu P Sys.boot) ops)) := by
  by_cases h1 : P.sdl_init_ok = true
  swap
  · exact ⟨[], by simp, Or.inl (by simp [main, h1])⟩
  by_cases h2 : P.window_ok = true
  swap
  · exact ⟨[], by simp, Or.inl (by simp [main, h1, h2])⟩
  obtain ⟨ops, h, g⟩ := main_loop_run L frequency ticks
    { sys := init_wgpu P (Sys.boot : Sys K), last_time := counter, running := true }
  refine ⟨ops, g, Or.inr ?_⟩
  simp only [main, h1, h2, Bool.not_true, Bool.false_eq_true, if_false]
  split
  · exact Or.inl h
  · exact Or.inr (by rw [h])

end MainLoop
/-! ## No frame before the bootstrap completes -/

/-- The calls of `cleanup` are not frame calls. -/
theorem release_sequence_no_frame (s : State K) :
    (release_sequence s).filter Call.isFrameCall = [] := by
  rw [release_sequence, filter_flatMap]
  simp only [release_order, List.flatMap_cons, List.flatMap_nil, List.filter_append,
    List.append_nil, apply_ite (List.filter _), List.filter_cons, List.filter_nil,
    Call.isFrameCall, Call.isUniformWrite, Call.isRenderCall, Bool.or_self, Bool.false_eq_true,
    if_false, ite_self]

theorem release_sequence_configuredIn (s : State K) : configuredIn (release_sequence s) = [] := by
  simp only [configuredIn, release_sequence, release_order, filter_flatMap, List.flatMap_cons,
    List.flatMap_nil, List.filterMap_append, List.append_nil, apply_ite (List.filterMap _),
    List.filterMap_cons, List.filterMap_nil, ite_self]

theorem release_sequence_texturesIn (s : State K) : texturesIn (release_sequence s) = [] := by
  simp only [texturesIn, release_sequence, release_order, filter_flatMap, List.flatMap_cons,
    List.flatMap_nil, List.filterMap_append, List.append_nil, apply_ite (List.filterMap _),
    List.filterMap_cons, List.filterMap_nil, ite_self]

section BootNoFrame
variable [LinearOrderedField K]

/-- The bootstrap makes no frame call. -/
theorem init_wgpu_no_frame (P : Platform) :
    (init_wgpu P (Sys.boot : Sys K)).trace.filter Call.isFrameCall = [] := by
  by_cases hi : P.instance_ok = true
  swap
  · rw [init_wgpu_no_instance P (by simpa using hi)]; rfl
  by_cases hw : P.wm_info_ok = true
  swap
  · rw [init_wgpu_no_wm_info P hi (by simpa using hw)]; rfl
  by_cases hs : P.surface_ok = true
  swap
  · rw [init_wgpu_no_surface P hi hw (by simpa using hs)]; rfl
  by_cases ha : P.adapter_status = .Success
  swap
  · rw [init_wgpu_no_adapter P hi hw hs ha]; rfl
  by_cases hd : P.device_status = .Success
  swap
  · rw [init_wgpu_no_device P hi hw hs ha hd]; rfl
  by_cases hc : P.caps_status = .Success
  swap
  · rw [init_wgpu_no_caps P hi hw hs ha hd hc]; rfl
  rw [init_wgpu_device P hi hw hs ha hd, on_device_trace P _ hc]
  rfl

/-- Guarded calls on a struct that is not initialized do nothing at all. -/
theorem run_not_initialized (L : Libm K) (ops : List (Op K)) (σ : Sys K)
    (hi : σ.state.initialized = false) (hg : ∀ o ∈ ops, o.guarded σ.state.initialized) :
    run L σ ops = σ := by
  induction ops with
  | nil => rfl
  | cons o ops ih =>
    have ho := hg o (List.mem_cons_self _ _)
    cases o with
    | resize width height =>
      show run L (resize σ width height) ops = σ
      rw [resize_not_initialized σ width height hi]
      exact ih fun o ho => hg o (List.mem_cons_of_mem _ ho)
    | update dt =>
      rw [hi] at ho
      exact absurd ho (by simp [Op.guarded])
    | render status =>
      rw [hi] at ho
      exact absurd ho (by simp [Op.guarded])

/-- An iteration of the loop on a struct that is not initialized makes no call
and changes neither the struct nor the GPU side. -/
theorem iteration_not_initialized (L : Libm K) (frequency : Nat) (m : Loop K) (t : Tick)
    (hi : m.sys.state.initialized = false) : (iteration L frequency m t).sys = m.sys := by
  obtain ⟨ops, h, g⟩ := iteration_run L frequency m t
  rw [h, run_not_initialized L ops m.sys hi g]

end BootNoFrame
section MainFacts
variable [LinearOrderedField K]

/-- C6. In every run of `main`, over any ticks: a call of `update` or `render`
occurs only if the struct is initialized, and while it is not, an iteration of
the loop makes no call at all; the struct is initialized only if every stage of
the bootstrap succeeded, every handle field (instance, surface, adapter, device,
queue, depth texture and view, the three buffers, bind group layout, bind group,
pipeline) is non-null and holds an object of its kind created in the run; and if
instance creation, surface creation, the adapter request, the device request or
the capabilities query fails, the struct is not initialized at any point of the
run and no call of `update` or `render` is ever made. -/
theorem frames_only_when_initialized (L : Libm K) (P : Platform) (counter frequency : Nat)
    (ticks : List Tick) :
    ((∃ c ∈ (main L P counter frequency ticks).sys.trace, c.isFrameCall = true) →
      (main L P counter frequency ticks).sys.state.initialized = true) ∧
    ((main L P counter frequency ticks).sys.state.initialized = true →
      P.all_ok = true ∧ (main L P counter frequency ticks).sys.state.complete ∧
      ∀ e ∈ (main L P counter frequency ticks).sys.state.owned,
        e ∈ createdIn (main L P counter frequency ticks).sys.trace) ∧
    (P.all_ok = false →
      (main L P counter frequency ticks).sys.state.initialized = false ∧
      (main L P counter frequency ticks).sys.trace.filter Call.isFrameCall = []) ∧
    (∀ (m : Loop K) (t : Tick), m.sys.state.initialized = false →
      (iteration L frequency m t).sys = m.sys) := by
  have key : (main L P counter frequency ticks).sys.state.initialized = true ∨
      ((main L P counter frequency ticks).sys.state.initialized = false ∧
       (main L P counter frequency ticks).sys.trace.filter Call.isFrameCall = []) := by
    obtain ⟨ops, g, h | h | h⟩ := main_run L P counter frequency ticks
    · exact Or.inr (by rw [h]; exact ⟨rfl, rfl⟩)
    · by_cases hi : (init_wgpu P (Sys.boot : Sys K)).state.initialized = true
      · exact Or.inl (by rw [h, run_initialized, hi])
      · have hi' : (init_wgpu P (Sys.boot : Sys K)).state.initialized = false := by simpa using hi
        rw [h, run_not_initialized L ops _ hi' g]
        exact Or.inr ⟨hi', init_wgpu_no_frame P⟩
    · by_cases hi : (init_wgpu P (Sys.boot : Sys K)).state.initialized = true
      · exact Or.inl (by rw [h, cleanup_eq]; exact (run_initialized L ops _).trans hi)
      · have hi' : (init_wgpu P (Sys.boot : Sys K)).state.initialized = false := by simpa using hi
        rw [h, run_not_initialized L ops _ hi' g, cleanup_eq]
        refine Or.inr ⟨hi', ?_⟩
        rw [Sys.emits_trace, List.filter_append, init_wgpu_no_frame P,
          release_sequence_no_frame]
        rfl
  have ok : (main L P counter frequency ticks).sys.state.initialized = true →
      P.all_ok = true ∧ (main L P counter frequency ticks).sys.state.complete ∧
      ∀ e ∈ (main L P counter frequency ticks).sys.state.owned,
        e ∈ createdIn (main L P counter frequency ticks).sys.trace := by
    intro hinit
    obtain ⟨ops, g, h | h | h⟩ := main_run L P counter frequency ticks
    · rw [h] at hinit
      exact absurd hinit (by simp [Sys.boot, State.zero])
    · have hs : Sound (run L (init_wgpu P (Sys.boot : Sys K)) ops) :=
        sound_run L ops (sound_boot P)
      rw [h] at hinit ⊢
      refine ⟨?_, hs.complete hinit, fun e he => hs.created e he (hs.complete hinit e he)⟩
      rw [run_initialized, init_wgpu_initialized] at hinit
      exact hinit
    · have hs : Sound (run L (init_wgpu P (Sys.boot : Sys K)) ops) :=
        sound_run L ops (sound_boot P)
      rw [h, cleanup_eq] at hinit ⊢
      have hinit' : (run L (init_wgpu P (Sys.boot : Sys K)) ops).state.initialized = true :=
        hinit
      refine ⟨?_, hs.complete hinit', fun e he => ?_⟩
      · rw [run_initialized, init_wgpu_initialized] at hinit'
        exact hinit'
      · rw [Sys.emits_trace, createdIn_append]
        exact List.mem_append_left _ (hs.created e he (hs.complete hinit' e he))
  refine ⟨?_, ok, ?_, fun m t hi => iteration_not_initialized L frequency m t hi⟩
  · rintro ⟨c, hc, hf⟩
    rcases key with h | ⟨_, h⟩
    · exact h
    · have : c ∈ (main L P counter frequency ticks).sys.trace.filter Call.isFrameCall :=
        List.mem_filter.2 ⟨hc, hf⟩
      rw [h] at this
      exact absurd this (List.not_mem_nil _)
  · intro hbad
    rcases key with h | h
    · have := (ok h).1
      rw [hbad] at this
      exact absurd this (by decide)
    · exact h

/-- C6, at concrete inputs: with a failing surface creation the loop never
updates or renders; with a working platform the struct ends up initialized and
complete. -/
theorem frames_only_when_initialized_witness :
    Platform.no_surface.all_ok = false ∧
    (main Libm.rational Platform.no_surface 0 1000
      [Tick.resized, Tick.minimized]).sys.state.initialized = false ∧
    (main Libm.rational Platform.no_surface 0 1000
      [Tick.resized, Tick.minimized]).sys.trace.filter Call.isFrameCall = [] ∧
    (main Libm.rational Platform.good 0 1000 [Tick.resized]).sys.state.initialized = true ∧
    (main Libm.rational Platform.good 0 1000 [Tick.resized]).sys.state.complete :=
  have h := frames_only_when_initialized Libm.rational Platform.no_surface 0 1000
    [Tick.resized, Tick.minimized]
  have g := frames_only_when_initialized Libm.rational Platform.good 0 1000 [Tick.resized]
  ⟨by decide, (h.2.2.1 (by decide)).1, (h.2.2.1 (by decide)).2, by decide,
    (g.2.1 (by decide)).2.1⟩

end MainFacts
/-! ## Sizes -/

theorem sized_resize {σ : Sys K} (h : Sized σ) (width height : Nat) (hw : 0 < width)
    (hh : 0 < height) : Sized (resize σ width height) := by
  by_cases hi : σ.state.initialized = true
  swap
  · rw [resize_not_initialized σ width height (by simpa using hi)]
    exact h
  have hcfg : configuredIn (resize σ width height).trace = configuredIn σ.trace ++
      [{ σ.state.surface_config with width := width, height := height }] := by
    rw [resize_trace σ width height hi]
    by_cases h1 : σ.state.depth_texture = NULL <;> by_cases h2 : σ.state.depth_view = NULL <;>
      simp [configuredIn, h1, h2]
  have htex : (texturesIn (resize σ width height).trace).map (fun e => (e.2.width, e.2.height)) =
      (texturesIn σ.trace).map (fun e => (e.2.width, e.2.height)) ++ [(width, height)] := by
    rw [resize_trace σ width height hi]
    by_cases h1 : σ.state.depth_texture = NULL <;> by_cases h2 : σ.state.depth_view = NULL <;>
      simp [texturesIn, h1, h2]
  refine ⟨?_, ?_, ?_, ?_, ?_⟩
  · rw [resize_state σ width height hi]; exact hw
  · rw [resize_state σ width height hi]; exact hh
  · intro _
    rw [resize_state σ width height hi]
    exact ⟨rfl, rfl⟩
  · intro c hc
    rw [hcfg, List.mem_append, List.mem_singleton] at hc
    rcases hc with hc | rfl
    · exact h.configured c hc
    · exact ⟨hw, hh⟩
  · intro e he
    have : (e.2.width, e.2.height) ∈
        (texturesIn (resize σ width height).trace).map (fun e => (e.2.width, e.2.height)) :=
      List.mem_map.2 ⟨e, he, rfl⟩
    rw [htex, List.mem_append, List.mem_singleton] at this
    rcases this with hm | hm
    · obtain ⟨e', he', heq⟩ := List.mem_map.1 hm
      have := h.textures e' he'
      simp only [Prod.mk.injEq] at heq
      rw [← heq.1, ← heq.2]
      exact this
    · simp only [Prod.mk.injEq] at hm
      rw [hm.1, hm.2]
      exact ⟨hw, hh⟩

/-- A step that changes neither the sizes nor the initialized flag, and neither
configures the surface nor creates a depth texture, keeps the sizes in agreement. -/
theorem Sized.frame {σ σ' : Sys K} {cs : List (Call K)} (h : Sized σ)
    (hw : σ'.state.width = σ.state.width) (hh : σ'.state.height = σ.state.height)
    (hc : σ'.state.surface_config = σ.state.surface_config)
    (hi : σ'.state.initialized = σ.state.initialized)
    (ht : σ'.trace = σ.trace ++ cs) (h1 : configuredIn cs = []) (h2 : texturesIn cs = []) :
    Sized σ' := by
  refine ⟨by rw [hw]; exact h.width_pos, by rw [hh]; exact h.height_pos, ?_, ?_, ?_⟩
  · rw [hi, hc, hw, hh]; exact h.config
  · rw [ht, configuredIn_append, h1, List.append_nil]; exact h.configured
  · rw [ht, texturesIn_append, h2, List.append_nil]; exact h.textures

theorem sized_cleanup {σ : Sys K} (h : Sized σ) : Sized (cleanup σ) := by
  rw [cleanup_eq]
  exact h.frame rfl rfl rfl rfl rfl (release_sequence_configuredIn _)
    (release_sequence_texturesIn _)

section SizedRun
variable [LinearOrderedField K]

theorem sized_update (L : Libm K) {σ : Sys K} (h : Sized σ) (dt : K) :
    Sized (update L σ dt) := by
  obtain ⟨m, hm⟩ := update_trace L σ dt
  exact h.frame (by simp [update]) (by simp [update]) (by simp [update]) (by simp [update]) hm
    rfl rfl

theorem sized_render {σ : Sys K} (h : Sized σ) (status : WGPUSurfaceGetCurrentTextureStatus) :
    Sized (render σ status) := by
  by_cases hs : status.isSuccess = true
  · exact h.frame (by rw [render_state]) (by rw [render_state]) (by rw [render_state])
      (by rw [render_state]) (render_trace σ status hs) rfl rfl
  · rw [render_skip σ status (by simpa using hs)]
    exact h.frame rfl rfl rfl rfl (Sys.emit_trace σ _) rfl rfl

theorem sized_run (L : Libm K) (ops : List (Op K)) {σ : Sys K} (h : Sized σ)
    (hg : ∀ o ∈ ops, o.guarded σ.state.initialized) : Sized (run L σ ops) := by
  induction ops generalizing σ with
  | nil => exact h
  | cons o ops ih =>
    have ho := hg o (List.mem_cons_self _ _)
    have hrest : ∀ σ' : Sys K, σ'.state.initialized = σ.state.initialized →
        ∀ o ∈ ops, o.guarded σ'.state.initialized := by
      intro σ' e o ho
      rw [e]
      exact hg o (List.mem_cons_of_mem _ ho)
    cases o with
    | resize width height =>
      exact @ih (resize σ width height) (sized_resize h width height ho.1 ho.2)
        (hrest _ (resize_initialized σ width height))
    | update dt =>
      exact @ih (update L σ dt) (sized_update L h dt) (hrest _ (update_initialized L σ dt))
    | render status =>
      exact @ih (render σ status) (sized_render h status)
        (hrest _ (congrArg State.initialized (render_state σ status)))

theorem sized_start : Sized (Sys.boot : Sys K) :=
  ⟨show 0 < 800 by decide, show 0 < 600 by decide,
    fun h => absurd h (by simp [Sys.boot, State.zero]),
    fun c hc => absurd hc (List.not_mem_nil _), fun e he => absurd he (List.not_mem_nil _)⟩

theorem sized_boot (P : Platform) : Sized (init_wgpu P (Sys.boot : Sys K)) := by
  have fail : ∀ σ : Sys K, σ.state.width = 800 → σ.state.height = 600 →
      σ.state.initialized = false → configuredIn σ.trace = [] → texturesIn σ.trace = [] →
      Sized σ := by
    intro σ h1 h2 h3 h4 h5
    refine ⟨by rw [h1]; decide, by rw [h2]; decide, ?_, ?_, ?_⟩
    · rw [h3]; intro h; exact absurd h (by decide)
    · rw [h4]; intro c hc; exact absurd hc (List.not_mem_nil _)
    · rw [h5]; intro c hc; exact absurd hc (List.not_mem_nil _)
  by_cases hi : P.instance_ok = true
  swap
  · rw [init_wgpu_no_instance P (by simpa using hi)]
    exact fail _ rfl rfl rfl rfl rfl
  by_cases hw : P.wm_info_ok = true
  swap
  · rw [init_wgpu_no_wm_info P hi (by simpa using hw)]
    exact fail _ rfl rfl rfl rfl rfl
  by_cases hs : P.surface_ok = true
  swap
  · rw [init_wgpu_no_surface P hi hw (by simpa using hs)]
    exact fail _ rfl rfl rfl rfl rfl
  by_cases ha : P.adapter_status = .Success
  swap
  · rw [init_wgpu_no_adapter P hi hw hs ha]
    exact fail _ rfl rfl rfl rfl rfl
  by_cases hd : P.device_status = .Success
  swap
  · rw [init_wgpu_no_device P hi hw hs ha hd]
    exact fail _ rfl rfl rfl rfl rfl
  by_cases hc : P.caps_status = .Success
  swap
  · rw [init_wgpu_no_caps P hi hw hs ha hd hc]
    exact fail _ rfl rfl rfl rfl rfl
  rw [init_wgpu_device P hi hw hs ha hd]
  refine ⟨?_, ?_, ?_, ?_, ?_⟩
  · rw [on_device_state P _ hc]; exact show 0 < 800 by decide
  · rw [on_device_state P _ hc]; exact show 0 < 600 by decide
  · intro _
    rw [on_device_state P _ hc]
    exact ⟨rfl, rfl⟩
  · rw [on_device_trace P _ hc]
    simp [configuredIn, Sys.boot, State.zero]
  · rw [on_device_trace P _ hc]
    simp [texturesIn, Sys.boot, State.zero]

/-- C7. In every run of `main`, over any ticks and any window events, from the
initial 800 by 600: what `main` does is a run of calls on the bootstrapped state
in which every `resize` has width > 0 and height > 0; a window event whose width
or height is zero as `uint32_t` leaves everything as it is; and in every state
reached, `state.width` and `state.height` are non-zero, and when the struct is
initialized `surface_config.width` and `surface_config.height` are non-zero too
and equal to them. No `wgpuSurfaceConfigure` call and no depth texture creation
of the run has a zero width or height. -/
theorem resize_only_with_positive_size (L : Libm K) (P : Platform) (counter frequency : Nat)
    (ticks : List Tick) :
    (∃ ops : List (Op K),
      (∀ width height, Op.resize width height ∈ ops → 0 < width ∧ 0 < height) ∧
      ((main L P counter frequency ticks).sys = Sys.boot ∨
       (main L P counter frequency ticks).sys = run L (init_wgpu P Sys.boot) ops ∨
       (main L P counter frequency ticks).sys = cleanup (run L (init_wgpu P Sys.boot) ops))) ∧
    (∀ (m : Loop K) (event : Nat) (data1 data2 : Int),
      to_uint32 data1 = 0 ∨ to_uint32 data2 = 0 →
      handle_event m (.SDL_WINDOWEVENT event data1 data2) = m) ∧
    0 < (main L P counter frequency ticks).sys.state.width ∧
    0 < (main L P counter frequency ticks).sys.state.height ∧
    ((main L P counter frequency ticks).sys.state.initialized = true →
      0 < (main L P counter frequency ticks).sys.state.surface_config.width ∧
      0 < (main L P counter frequency ticks).sys.state.surface_config.height ∧
      (main L P counter frequency ticks).sys.state.surface_config.width =
        (main L P counter frequency ticks).sys.state.width ∧
      (main L P counter frequency ticks).sys.state.surface_config.height =
        (main L P counter frequency ticks).sys.state.height) ∧
    (∀ c ∈ configuredIn (main L P counter frequency ticks).sys.trace,
      0 < c.width ∧ 0 < c.height) ∧
    (∀ e ∈ texturesIn (main L P counter frequency ticks).sys.trace,
      0 < e.2.width ∧ 0 < e.2.height) := by
  have hsized : Sized (main L P counter frequency ticks).sys := by
    obtain ⟨ops, g, h | h | h⟩ := main_run L P counter frequency ticks
    · rw [h]; exact sized_start
    · rw [h]; exact sized_run L ops (sized_boot P) g
    · rw [h]; exact sized_cleanup (sized_run L ops (sized_boot P) g)
  refine ⟨?_, ?_, hsized.width_pos, hsized.height_pos, ?_, hsized.configured, hsized.textures⟩
  · obtain ⟨ops, g, h⟩ := main_run L P counter frequency ticks
    exact ⟨ops, fun width height ho => g _ ho, h⟩
  · intro m event data1 data2 hz
    simp only [handle_event]
    split
    · split
      · next h => omega
      · rfl
    · rfl
  · intro hi
    obtain ⟨h1, h2⟩ := hsized.config hi
    exact ⟨by rw [h1]; exact hsized.width_pos, by rw [h2]; exact hsized.height_pos, h1, h2⟩

/-- C7, at a concrete input: a resize to 1024 by 768, then a minimize, on a
working platform. The minimize is dropped and the sizes stay 1024 by 768. -/
theorem resize_only_with_positive_size_witness :
    (to_uint32 0 = 0 ∨ to_uint32 0 = 0) ∧
    (main Libm.rational Platform.good 0 1000
      [Tick.resized, Tick.minimized]).sys.state.initialized = true ∧
    0 < (main Libm.rational Platform.good 0 1000
      [Tick.resized, Tick.minimized]).sys.state.surface_config.width ∧
    0 < (main Libm.rational Platform.good 0 1000
      [Tick.resized, Tick.minimized]).sys.state.surface_config.height ∧
    (main Libm.rational Platform.good 0 1000
      [Tick.resized, Tick.minimized]).sys.state.surface_config.width = 1024 ∧
    (main Libm.rational Platform.good 0 1000
      [Tick.resized, Tick.minimized]).sys.state.height = 768 :=
  have h := resize_only_with_positive_size Libm.rational Platform.good 0 1000
    [Tick.resized, Tick.minimized]
  ⟨Or.inl (by decide), by decide, (h.2.2.2.2.1 (by decide)).1, (h.2.2.2.2.1 (by decide)).2.1,
    by decide, by decide⟩

end SizedRun
/-! ## The resize handler -/

/-- C8, refuted: on the state of a successful bootstrap, `resize(state, 0, 600)`
calls `wgpuSurfaceConfigure` with `surface_config.width = 0`, and creates a
depth texture of width 0. -/
theorem resize_zero_width_reconfigures :
    (init_wgpu Platform.good (Sys.boot : Sys ℚ)).state.initialized = true ∧
    configuredIn (emitted (init_wgpu Platform.good (Sys.boot : Sys ℚ))
        (resize (init_wgpu Platform.good (Sys.boot : Sys ℚ)) 0 600)) =
      [{ device := 4, usage := WGPUTextureUsage_RenderAttachment, format := .Other 23,
         width := 0, height := 600, presentMode := .Fifo, alphaMode := 1 }] ∧
    (resize (init_wgpu Platform.good (Sys.boot : Sys ℚ)) 0 600).state.surface_config.width = 0 ∧
    (texturesIn (emitted (init_wgpu Platform.good (Sys.boot : Sys ℚ))
        (resize (init_wgpu Platform.good (Sys.boot : Sys ℚ)) 0 600))).map
      (fun e => (e.2.width, e.2.height)) = [(0, 600)] := by
  decide

/-- C8, amended. `resize` has no guard against a zero size: on every
initialized state it calls `wgpuSurfaceConfigure` exactly once, with
`surface_config.width = width` and `surface_config.height = height` as passed,
zero included, and stores them. It is the caller that keeps zero sizes away:
the event handler of `main` leaves everything untouched on a window event whose
width or height is zero. -/
theorem resize_configures_with_the_size_passed (σ : Sys K) (width height : Nat)
    (hi : σ.state.initialized = true) :
    configuredIn (emitted σ (resize σ width height)) =
      [{ σ.state.surface_config with width := width, height := height }] ∧
    (resize σ width height).state.surface_config =
      { σ.state.surface_config with width := width, height := height } ∧
    (∀ (m : Loop K) (event : Nat) (data1 data2 : Int),
      to_uint32 data1 = 0 ∨ to_uint32 data2 = 0 →
      handle_event m (.SDL_WINDOWEVENT event data1 data2) = m) := by
  refine ⟨?_, by rw [resize_state σ width height hi], ?_⟩
  · rw [emitted_eq (resize_trace σ width height hi)]
    by_cases h1 : σ.state.depth_texture = NULL <;> by_cases h2 : σ.state.depth_view = NULL <;>
      simp [configuredIn, h1, h2]
  · intro m event data1 data2 hz
    simp only [handle_event]
    split
    · split
      · next h => omega
      · rfl
    · rfl

/-- C8 amended, at a concrete input: a resize to 0 by 600 after a successful bootstrap. -/
theorem resize_configures_with_the_size_passed_witness :
    (init_wgpu Platform.good (Sys.boot : Sys ℚ)).state.initialized = true ∧
    configuredIn (emitted (init_wgpu Platform.good (Sys.boot : Sys ℚ))
        (resize (init_wgpu Platform.good (Sys.boot : Sys ℚ)) 0 600)) =
      [{ (init_wgpu Platform.good (Sys.boot : Sys ℚ)).state.surface_config with
         width := 0, height := 600 }] :=
  ⟨by decide, (resize_configures_with_the_size_passed
    (init_wgpu Platform.good (Sys.boot : Sys ℚ)) 0 600 (by decide)).1⟩

/-- C9. On a state that is not initialized, `resize` returns with everything
unchanged (in particular `width`, `height`, `surface_config`, `depth_texture`
and `depth_view`) and makes no call: no surface configure, no texture destroy,
release or create. -/
theorem resize_ignored_until_initialized (σ : Sys K) (width height : Nat)
    (hi : σ.state.initialized = false) :
    resize σ width height = σ ∧
    (resize σ width height).state.width = σ.state.width ∧
    (resize σ width height).state.height = σ.state.height ∧
    (resize σ width height).state.surface_config = σ.state.surface_config ∧
    (resize σ width height).state.depth_texture = σ.state.depth_texture ∧
    (resize σ width height).state.depth_view = σ.state.depth_view ∧
    emitted σ (resize σ width height) = [] ∧
    (emitted σ (resize σ width height)).filter Call.isResizeWork = [] := by
  rw [resize_not_initialized σ width height hi]
  simp [emitted]

/-- C9, at a concrete input: a resize after a bootstrap whose surface creation failed. -/
theorem resize_ignored_until_initialized_witness :
    (init_wgpu Platform.no_surface (Sys.boot : Sys ℚ)).state.initialized = false ∧
    emitted (init_wgpu Platform.no_surface (Sys.boot : Sys ℚ))
      (resize (init_wgpu Platform.no_surface (Sys.boot : Sys ℚ)) 1024 768) = [] ∧
    (resize (init_wgpu Platform.no_surface (Sys.boot : Sys ℚ)) 1024 768).state.width = 800 :=
  have h := resize_ignored_until_initialized
    (init_wgpu Platform.no_surface (Sys.boot : Sys ℚ)) 1024 768 (by decide)
  ⟨by decide, h.2.2.2.2.2.2.1, h.2.1.trans (by decide)⟩
/-! ## The model matrix -/

theorem resize_model (σ : Sys K) (width height : Nat) :
    (resize σ width height).state.model = σ.state.model := by
  by_cases h : σ.state.initialized = true
  · rw [resize_state σ width height h]
  · rw [resize_not_initialized σ width height (by simpa using h)]

section Model
variable [LinearOrderedField K]

theorem glm_mat4_mul_eq (a b : Mat4 K) : glm_mat4_mul a b = a * b := by
  ext i j
  simp [glm_mat4_mul, Matrix.mul_apply, Fin.sum_univ_four]

theorem glm_mat4_identity_eq : (glm_mat4_identity : Mat4 K) = 1 := by
  ext i j
  fin_cases i <;> fin_cases j <;> rfl

/-- With a square root that is exact at 1, the +Y axis is its own normalisation. -/
theorem glm_vec3_normalize_to_y (L : Libm K) (h1 : L.sqrtf 1 = 1) :
    glm_vec3_normalize_to L ![0, 1, 0] = ![0, 1, 0] := by
  have hn : glm_vec3_norm L ![0, 1, 0] = 1 := by
    simp [glm_vec3_norm, glm_vec3_dot, h1]
  have he : ¬ ((1 : K) < FLT_EPSILON) := by
    norm_num [FLT_EPSILON]
  simp [glm_vec3_normalize_to, hn, he, glm_vec3_scale]

/-- About the +Y axis `glm_rotate_make` builds the rotation matrix by the angle. -/
theorem glm_rotate_make_y (L : Libm K) (h1 : L.sqrtf 1 = 1) (angle : K) :
    glm_rotate_make L angle ![0, 1, 0] = rotation_y L angle := by
  ext i j
  fin_cases i <;> fin_cases j <;>
    simp [glm_rotate_make, glm_vec3_normalize_to_y L h1, glm_vec3_scale, rotation_y]

theorem update_model (L : Libm K) (σ : Sys K) (dt : K) :
    (update L σ dt).state.model =
      glm_rotate_make L (glm_rad L 30 * dt) ![0, 1, 0] * σ.state.model := by
  simp [update, glm_mat4_mul_eq]

/-- Over a run, the model matrix is multiplied on the left by one rotation per
`update`, the latest leftmost. -/
theorem run_model (L : Libm K) (h1 : L.sqrtf 1 = 1) (ops : List (Op K)) (σ : Sys K) :
    (run L σ ops).state.model =
      ((deltas ops).reverse.map fun dt => rotation_y L (glm_rad L 30 * dt)).prod *
        σ.state.model := by
  induction ops generalizing σ with
  | nil => simp [run, deltas]
  | cons o ops ih =>
    show (run L (Op.run L σ o) ops).state.model = _
    rw [ih]
    cases o with
    | resize width height =>
      show _ * (resize σ width height).state.model = _
      rw [resize_model]
      rfl
    | update dt =>
      show _ * (update L σ dt).state.model = _
      rw [update_model, glm_rotate_make_y L h1]
      simp [deltas, Matrix.mul_assoc]
    | render status =>
      show _ * (render σ status).state.model = _
      rw [render_state]
      rfl

/-- The bootstrap leaves the identity in the model matrix when it succeeds. -/
theorem init_wgpu_model (P : Platform) (h : P.all_ok = true) :
    (init_wgpu P (Sys.boot : Sys K)).state.model = 1 := by
  obtain ⟨hi, hw, hs, ha, hd, hc⟩ := (Platform.all_ok_iff P).1 h
  rw [init_wgpu_device P hi hw hs ha hd, on_device_state P _ hc]
  exact glm_mat4_identity_eq

end Model

/-- C10. Over the reals, with the real cosine, sine and square root (exact
arithmetic, no rounding): after a bootstrap that leaves the struct initialized,
whose `on_device` sets the model matrix to the identity, and any run of calls
whose `update` calls have the `delta_time` values `dt_1, ..., dt_n` in this
order (of any sign, `resize` and `render` calls in between allowed), the model
matrix is `R(30deg * dt_n) * ... * R(30deg * dt_1) * I`, where `R(a)` is the
rotation by the angle `a` about the +Y axis: each `update` multiplies its
rotation on the left of the model matrix. -/
theorem model_is_product_of_y_rotations (P : Platform) (ops : List (Op ℝ))
    (hinit : (init_wgpu P (Sys.boot : Sys ℝ)).state.initialized = true) :
    (run ⟨Real.pi, Real.cos, Real.sin, Real.tan, Real.sqrt⟩ (init_wgpu P Sys.boot) ops).state.model =
      ((deltas ops).reverse.map fun dt =>
        rotation_y ⟨Real.pi, Real.cos, Real.sin, Real.tan, Real.sqrt⟩
          (30 * Real.pi / 180 * dt)).prod * 1 ∧
    (∀ a : ℝ, rotation_y ⟨Real.pi, Real.cos, Real.sin, Real.tan, Real.sqrt⟩ a =
      !![Real.cos a, 0, Real.sin a, 0;
         0, 1, 0, 0;
         -Real.sin a, 0, Real.cos a, 0;
         0, 0, 0, 1]) := by
  rw [init_wgpu_initialized] at hinit
  refine ⟨?_, fun a => rfl⟩
  rw [run_model _ (by simp) ops, init_wgpu_model P hinit]
  rfl

/-- C10, at a concrete input: two updates with a skipped frame and a resize in between. -/
theorem model_is_product_of_y_rotations_witness :
    (init_wgpu Platform.good (Sys.boot : Sys ℝ)).state.initialized = true ∧
    (run ⟨Real.pi, Real.cos, Real.sin, Real.tan, Real.sqrt⟩ (init_wgpu Platform.good Sys.boot)
        [.update 1, .render .Timeout, .resize 640 480, .update 2]).state.model =
      ((deltas [Op.update (1 : ℝ), .render .Timeout, .resize 640 480, .update 2]).reverse.map
        fun dt => rotation_y ⟨Real.pi, Real.cos, Real.sin, Real.tan, Real.sqrt⟩
          (30 * Real.pi / 180 * dt)).prod * 1 :=
  have hinit : (init_wgpu Platform.good (Sys.boot : Sys ℝ)).state.initialized = true := by
    rw [init_wgpu_initialized]
    decide
  ⟨hinit, (model_is_product_of_y_rotations Platform.good
    [.update 1, .render .Timeout, .resize 640 480, .update 2] hinit).1⟩
/-! ## The uniform contents -/

section Uniform
variable [LinearOrderedField K]

/-- The divisor of the aspect ratio in `update` is `max(height, 1)`. -/
theorem aspect_divisor (height : Nat) : (if height > 0 then height else 1) = max height 1 := by
  split <;> omega

/-- With a square root exact at 1 and at 9, the view of `update` (eye at
`(0, 0, 3)`, looking at the origin, +Y up) moves the scene 3 back along Z. -/
theorem glm_lookat_fixed (L : Libm K) (h1 : L.sqrtf 1 = 1) (h9 : L.sqrtf 9 = 3) :
    glm_lookat L ![0, 0, 3] ![0, 0, 0] ![0, 1, 0] =
      !![1, 0, 0, 0;
         0, 1, 0, 0;
         0, 0, 1, -3;
         0, 0, 0, 1] := by
  have he1 : ¬ ((1 : K) < FLT_EPSILON) := by norm_num [FLT_EPSILON]
  have he3 : ¬ ((3 : K) < FLT_EPSILON) := by norm_num [FLT_EPSILON]
  have e1 : glm_vec3_sub (![0, 0, 0] : Vec3 K) ![0, 0, 3] = ![0, 0, -3] := by
    simp [glm_vec3_sub]
  have n1 : glm_vec3_norm L ![0, 0, -3] = 3 := by
    have : ((-3 : K) * -3) = 9 := by norm_num
    simp [glm_vec3_norm, glm_vec3_dot, this, h9]
  have hf : glm_vec3_normalize_to L ![0, 0, -3] = ![0, 0, -1] := by
    simp [glm_vec3_normalize_to, n1, he3, glm_vec3_scale]
  have e2 : glm_vec3_cross (![0, 0, -1] : Vec3 K) ![0, 1, 0] = ![1, 0, 0] := by
    simp [glm_vec3_cross]
  have n2 : glm_vec3_norm L ![1, 0, 0] = 1 := by
    simp [glm_vec3_norm, glm_vec3_dot, h1]
  have hs : glm_vec3_normalize_to L ![1, 0, 0] = ![1, 0, 0] := by
    simp [glm_vec3_normalize_to, n2, he1, glm_vec3_scale]
  ext i j
  fin_cases i <;> fin_cases j <;>
    simp [glm_lookat, e1, hf, e2, hs, glm_vec3_cross, glm_vec3_dot]

/-- The projection of `update`, entry by entry. -/
theorem glm_perspective_fixed (L : Libm K) (fovy aspect : K) :
    glm_perspective L fovy aspect (1 / 10) 1000 =
      !![1 / L.tanf (fovy * (1 / 2)) / aspect, 0, 0, 0;
         0, 1 / L.tanf (fovy * (1 / 2)), 0, 0;
         0, 0, -(10001 / 9999), -(2000 / 9999);
         0, 0, -1, 0] := by
  ext i j
  fin_cases i <;> fin_cases j <;> simp [glm_perspective] <;> norm_num

/-- C11. For every state and every `delta_time`, `update` makes one call, a
`wgpuQueueWriteBuffer` to the uniform buffer at offset 0 of one matrix, and that
matrix is `projection(fov = 80 degrees, aspect, near = 0.1, far = 1000) *
view(eye = (0, 0, 3), target = origin, up = +Y) * model` as a product of
matrices (over exact arithmetic, where the grouping of the product does not
matter), with `model` the model matrix stored in the state by this call, that
is the rotation of this call times the model matrix before, and with
`aspect = width / max(height, 1)`. The divisor `max(height, 1)` is not zero for
any height, and for height 0 the aspect is the width. The projection is
`glm_perspective` with these arguments, the view is `glm_lookat`; entry by entry,
the projection has `1 / tan(40 degrees)` over the aspect and `1 / tan(40 degrees)`
on the diagonal, and when the square root is exact at 1 and 9 the view moves the
scene 3 back along Z and the rotation is the one about +Y. -/
theorem update_writes_projection_view_model (L : Libm K) (σ : Sys K) (delta_time : K) :
    emitted σ (update L σ delta_time) =
      [.wgpuQueueWriteBuffer σ.state.queue σ.state.uniform_buffer 0
        (mvp_spec L σ.state.width σ.state.height (update L σ delta_time).state.model)
        sizeof_UniformBuffer] ∧
    (update L σ delta_time).state.uniform_buffer = σ.state.uniform_buffer ∧
    (update L σ delta_time).state.model =
      glm_rotate_make L (30 * L.pi / 180 * delta_time) ![0, 1, 0] * σ.state.model ∧
    (∀ model : Mat4 K, mvp_spec L σ.state.width σ.state.height model =
      glm_perspective L (80 * L.pi / 180) (aspect_spec σ.state.width σ.state.height) (1 / 10)
        1000 * (glm_lookat L ![0, 0, 3] ![0, 0, 0] ![0, 1, 0] * model)) ∧
    (∀ width height : Nat, ((max height 1 : Nat) : K) ≠ 0 ∧
      (aspect_spec width 0 : K) = (width : K) ∧
      (0 < height → (aspect_spec width height : K) = (width : K) / (height : K))) ∧
    (∀ fovy aspect : K, glm_perspective L fovy aspect (1 / 10) 1000 =
      !![1 / L.tanf (fovy * (1 / 2)) / aspect, 0, 0, 0;
         0, 1 / L.tanf (fovy * (1 / 2)), 0, 0;
         0, 0, -(10001 / 9999), -(2000 / 9999);
         0, 0, -1, 0]) ∧
    (L.sqrtf 1 = 1 → L.sqrtf 9 = 3 →
      glm_lookat L ![0, 0, 3] ![0, 0, 0] ![0, 1, 0] =
        !![1, 0, 0, 0;
           0, 1, 0, 0;
           0, 0, 1, -3;
           0, 0, 0, 1] ∧
      ∀ angle : K, glm_rotate_make L angle ![0, 1, 0] = rotation_y L angle) := by
  refine ⟨?_, by simp [update], ?_, ?_, ?_, glm_perspective_fixed L, ?_⟩
  · refine emitted_eq ?_
    simp [update, mvp_spec, aspect_spec, glm_mat4_mul_eq, glm_rad, aspect_divisor,
      Matrix.mul_assoc]
  · rw [update_model]
    rfl
  · intro model
    rw [mvp_spec, Matrix.mul_assoc]
  · intro width height
    refine ⟨?_, by simp [aspect_spec], ?_⟩
    · have : 0 < max height 1 := by omega
      exact_mod_cast this.ne'
    · intro h
      rw [aspect_spec, max_eq_left (by omega)]
  · intro h1 h9
    exact ⟨glm_lookat_fixed L h1 h9, glm_rotate_make_y L h1⟩

/-- C11, at a concrete input: the first update after a successful bootstrap at
800 by 600, with the rational stand-in for libm, whose square root is exact at
1 and 9. -/
theorem update_writes_projection_view_model_witness :
    Libm.rational.sqrtf 1 = 1 ∧ Libm.rational.sqrtf 9 = 3 ∧
    emitted (init_wgpu Platform.good (Sys.boot : Sys ℚ))
        (update Libm.rational (init_wgpu Platform.good (Sys.boot : Sys ℚ)) 1) =
      [.wgpuQueueWriteBuffer 5 10 0
        (mvp_spec Libm.rational 800 600
          (update Libm.rational (init_wgpu Platform.good (Sys.boot : Sys ℚ)) 1).state.model)
        64] ∧
    ((max 0 1 : Nat) : ℚ) ≠ 0 ∧
    glm_lookat Libm.rational ![0, 0, 3] ![0, 0, 0] ![0, 1, 0] =
      !![1, 0, 0, 0;
         0, 1, 0, 0;
         0, 0, 1, -3;
         0, 0, 0, 1] :=
  have h := update_writes_projection_view_model Libm.rational
    (init_wgpu Platform.good (Sys.boot : Sys ℚ)) 1
  have s1 : Nat.sqrt 1 = 1 := Nat.sqrt_eq 1
  have s9 : Nat.sqrt 9 = 3 := Nat.sqrt_eq 3
  have h1 : Libm.rational.sqrtf 1 = 1 := by simp [Libm.rational, s1]
  have h9 : Libm.rational.sqrtf 9 = 3 := by simp [Libm.rational, s1, s9]
  ⟨h1, h9, h.1, (h.2.2.2.2.1 800 0).1, (h.2.2.2.2.2.2 h1 h9).1⟩

end Uniform

end WgpuExample
